import Mathlib

/-!
Verification of the outline-extraction pipeline
(`extract_text.py` / `format.py`).

Text is modelled as `List Char` (Python `str`); font sizes and
coordinates as `ℚ` (Python floats, modelled exactly).  All regular
expressions of the source are embedded through a small fueled
backtracking matcher over an explicit pattern type, so that every
definition stays executable and kernel-reducible.
-/

namespace PdfOutline

abbrev Str := List Char

/-- Convert a Lean string literal to the character-list representation. -/
def str (s : String) : Str := s.data

/-- Python `str.lower()` (ASCII, which covers all strings in the source). -/
def pyLower (s : Str) : Str := s.map Char.toLower

/-- Python's `\s` / default-`strip` whitespace class. -/
def isPySpace (c : Char) : Bool :=
  c == ' ' || c == '\t' || c == '\n' || c == '\r' || c == '\x0b' || c == '\x0c'

/-- Python `str.strip()`: drop whitespace from both ends. -/
def pyStrip (s : Str) : Str :=
  ((s.dropWhile isPySpace).reverse.dropWhile isPySpace).reverse

/-- Python `str.strip(chars)`. -/
def pyStripChars (cs : Str) (s : Str) : Str :=
  ((s.dropWhile (cs.contains ·)).reverse.dropWhile (cs.contains ·)).reverse

/-- Fueled worker for `pySplit`; fuel `length + 1` always suffices. -/
def pySplitF : Nat → Str → List Str
  | 0, _ => []
  | fuel + 1, s =>
    match s.dropWhile isPySpace with
    | [] => []
    | c :: rest =>
      ((c :: rest).takeWhile (fun x => !isPySpace x)) ::
        pySplitF fuel ((c :: rest).dropWhile (fun x => !isPySpace x))

/-- Python `str.split()`: split on whitespace runs, dropping empties. -/
def pySplit (s : Str) : List Str := pySplitF (s.length + 1) s

/-- Python `a in b` for strings: `a` occurs as a contiguous substring of `b`. -/
def strPref : Str → Str → Bool
  | [], _ => true
  | _ :: _, [] => false
  | a :: as, b :: bs => a == b && strPref as bs

def pySubstr (a b : Str) : Bool := b.tails.any (strPref a)

/-- Python `str.startswith` for one pattern. -/
def pyStartsWith (s pat : Str) : Bool := strPref pat s

/-- Python `str.endswith` for one pattern. -/
def pyEndsWith (s pat : Str) : Bool := strPref pat.reverse s.reverse

/-- Python `str.isdigit()` on ASCII text. -/
def pyIsDigit (s : Str) : Bool := !s.isEmpty && s.all Char.isDigit

/-- Python `str.count(c)` for a single character. -/
def pyCountChar (s : Str) (c : Char) : Nat := s.countP (· == c)

/-- Python `' '.join(parts)`. -/
def joinSpace (parts : List Str) : Str :=
  match parts with
  | [] => []
  | p :: ps => p ++ (ps.flatMap (fun q => ' ' :: q))

/-- Python `str.replace(old, new)` — leftmost, non-overlapping. -/
def pyReplaceF : Nat → Str → Str → Str → Str
  | 0, _, _, _ => []
  | _ + 1, [], _, _ => []
  | fuel + 1, c :: rest, old, new =>
    if strPref old (c :: rest) && !old.isEmpty then
      new ++ pyReplaceF fuel ((c :: rest).drop old.length) old new
    else
      c :: pyReplaceF fuel rest old new

def pyReplace (s old new : Str) : Str := pyReplaceF (s.length + 1) s old new

/-- Fueled worker for `collapseWs`. -/
def collapseWsF : Nat → Str → Str
  | 0, _ => []
  | _ + 1, [] => []
  | fuel + 1, c :: rest =>
    if isPySpace c then
      ' ' :: collapseWsF fuel (rest.dropWhile isPySpace)
    else
      c :: collapseWsF fuel rest

/-- Python `re.sub(r'\s+', ' ', s)`: collapse every whitespace run to one space. -/
def collapseWs (s : Str) : Str := collapseWsF (s.length + 1) s

/-! ### A small regular-expression engine

Patterns of the source's `re.match` / `re.search` calls are embedded as
terms of `Rx`; `rxm` is a fueled backtracking matcher in continuation
style.  Fuel `length + 1` is enough because every starred subpattern of
the source consumes at least one character per iteration (the matcher
enforces progress explicitly). -/

inductive Rx where
  | eps
  | chr (c : Char)
  | cls (p : Char → Bool)
  | seq (a b : Rx)
  | alt (a b : Rx)
  | star (a : Rx)

def rxm : Nat → Rx → Str → (Str → Bool) → Bool
  | 0, _, _, _ => false
  | fuel + 1, rx, s, k =>
    match rx with
    | .eps => k s
    | .chr c =>
      match s with
      | [] => false
      | a :: rest => a == c && k rest
    | .cls p =>
      match s with
      | [] => false
      | a :: rest => p a && k rest
    | .seq a b => rxm fuel a s (fun s2 => rxm fuel b s2 k)
    | .alt a b => rxm fuel a s k || rxm fuel b s k
    | .star r =>
      k s || rxm fuel r s
        (fun s2 => if s2.length < s.length then rxm fuel (.star r) s2 k else false)

/-- Structural size of a pattern, used to compute a sufficient fuel. -/
def rxSize : Rx → Nat
  | .eps | .chr _ | .cls _ => 1
  | .seq a b | .alt a b => rxSize a + rxSize b + 1
  | .star a => rxSize a + 1

/-- A fuel that bounds the matcher's call depth: the pattern's structural
depth plus one full pattern traversal per character consumed by a starred
subpattern (the matcher insists every star iteration makes progress). -/
def rxFuel (r : Rx) (s : Str) : Nat := (s.length + 2) * (rxSize r + 2)

/-- Python `re.match(p, s)` for a pattern without a trailing `$`: prefix match. -/
def reMatch (r : Rx) (s : Str) : Bool := rxm (rxFuel r s) r s (fun _ => true)

/-- Python `re.match(p, s)` for an `^...$` pattern: whole-string match. -/
def reFull (r : Rx) (s : Str) : Bool := rxm (rxFuel r s) r s List.isEmpty

/-- Python `re.search(p, s)`: match starting anywhere. -/
def reSearch (r : Rx) (s : Str) : Bool :=
  s.tails.any (fun t => rxm (rxFuel r s) r t (fun _ => true))

def rlit (s : String) : Rx := s.data.foldr (fun c acc => Rx.seq (.chr c) acc) .eps

def ralts : List Rx → Rx
  | [] => .eps
  | [r] => r
  | r :: rs => .alt r (ralts rs)

/-- Alternation of string literals, in source order (matters for backtracking). -/
def rwords (ws : List String) : Rx := ralts (ws.map rlit)

def rAnyOf (s : String) : Rx := .cls (fun c => s.data.contains c)

def rdigit : Rx := .cls Char.isDigit

def rws : Rx := .cls isPySpace

/-- Pattern `.` — any character but a newline. -/
def rdot : Rx := .cls (fun c => c != '\n')

def rplus (r : Rx) : Rx := .seq r (.star r)

def ropt (r : Rx) : Rx := .alt r .eps

/-- Exactly `n` repetitions. -/
def rrep (r : Rx) : Nat → Rx
  | 0 => .eps
  | n + 1 => .seq r (rrep r n)

/-- Pattern `{n,}`: at least `n` repetitions. -/
def ratLeast (r : Rx) (n : Nat) : Rx := .seq (rrep r n) (.star r)

/-- At most `n` repetitions. -/
def rupto (r : Rx) : Nat → Rx
  | 0 => .eps
  | n + 1 => ropt (.seq r (rupto r n))

/-- Pattern `{lo,hi}`: bounded repetitions. -/
def rrange (r : Rx) (lo hi : Nat) : Rx := .seq (rrep r lo) (rupto r (hi - lo))

/-! ### Noise/Validity Filter (`extract_text.py`, lines 6–166) -/

/-- Pattern `[a-z]`. -/
def rlower : Rx := .cls Char.isLower

/-- The seven patterns shared by `is_non_meaningful_heading` and
`is_likely_heading` (`^...$`-anchored, matched on the lower-cased text). -/
def commonNonHeadingPats : List Rx := [
  .seq (rlit "page") (.seq (rplus rws) (rplus rdigit)),
  .seq (rplus rdigit) (.seq (.star rws) (.seq (rAnyOf "/-")
    (.seq (.star rws) (rplus rdigit)))),
  rlower,
  .seq (.chr '(') (.seq rlower (.chr ')')),
  .seq (rlit "fig") (.seq (ropt (.chr '.')) (.seq (.star rws) (.star rdigit))),
  .seq (rlit "table") (.seq (ropt (.chr '.')) (.seq (.star rws) (.star rdigit))),
  .seq (rlit "appendix") (.seq (.star rws) (ropt rlower))
]

/-- The `non_heading_patterns` list of `is_non_meaningful_heading` (adds the two
website patterns). -/
def nonHeadingPats : List Rx :=
  commonNonHeadingPats ++ [
    .seq (rlit "www.") (.seq (.star rdot) (.seq (rlit ".com") (.star rdot))),
    .seq (.star rdot) (.seq (rlit ".com") (.star rws))
  ]

/-- Pattern `[\$₹€£¥]`. -/
def rcurrency : Rx := rAnyOf "$₹€£¥"

/-- Function `is_tabular_data` (`extract_text.py`, lines 70–131). -/
def is_tabular_data (text : Str) : Bool :=
  let text_clean := pyStrip text
  let lower := pyLower text_clean
  -- Pattern 1: multiple numbers separated by whitespace
  if reSearch (.seq (rplus rdigit) (.seq (rplus rws) (.seq (rplus rdigit)
      (.seq (rplus rws) (rplus rdigit))))) text_clean then true
  -- Pattern 2: currency or percentage values in sequence
  else if reSearch (ralts [
      .seq rcurrency (.seq (.star rws) (.seq (rplus rdigit) (.seq (.star rdot)
        (.seq rcurrency (.seq (.star rws) (rplus rdigit)))))),
      .seq (.chr '%') (.seq (.star rdot) (.chr '%')),
      .seq (rplus rdigit) (.seq (.chr '%') (.seq (.star rdot)
        (.seq (rplus rdigit) (.chr '%'))))]) text_clean then true
  -- Pattern 3: column header patterns
  else if ([
      ralts [
        .seq (rlit "sl") (.seq (ropt (.chr '.')) (.seq (.star rws)
          (.seq (rlit "no") (ropt (.chr '.'))))),
        .seq (rlit "s") (.seq (ropt (.chr '.')) (.seq (.star rws)
          (.seq (rlit "no") (ropt (.chr '.'))))),
        .seq (rlit "sr") (.seq (ropt (.chr '.')) (.seq (.star rws)
          (.seq (rlit "no") (ropt (.chr '.')))))],
      rwords ["amount", "qty", "quantity", "rate", "price", "total", "subtotal"],
      rwords ["date", "time", "duration", "period"],
      rwords ["yes", "no", "y", "n"],
      rwords ["name", "description", "item", "product", "service"]
      ] : List Rx).any (fun p => reFull p lower) then true
  -- Pattern 4: table border patterns
  else if reFull (ratLeast (.cls (fun c =>
      c == '-' || c == '=' || c == '_' || c == '|' || c == '+' || isPySpace c)) 4)
      text_clean then true
  -- Pattern 5: short structured data entries
  else if (pySplit text_clean).length ≤ 3 &&
      (pySplit text_clean).all (fun w => w.length ≤ 10 &&
        (pyIsDigit w ||
         reFull (.seq (rplus rdigit) (.seq (rAnyOf ".,") (rplus rdigit))) w ||
         reFull (rrange (.cls Char.isUpper) 1 5) w ||
         [str "yes", str "no", str "na", str "nil", str "null", str "none"].contains
           (pyLower w))) then true
  -- Pattern 6: pathway table column headers
  else if ([
      .seq (rlit "regular") (.seq (rplus rws) (rlit "pathway")),
      .seq (rlit "distinction") (.seq (rplus rws) (rlit "pathway")),
      .seq (rlit "honor") (.seq (ropt (.chr 's')) (.seq (rplus rws) (rlit "pathway"))),
      .seq (rlit "advanced") (.seq (rplus rws) (rlit "pathway"))
      ] : List Rx).any (fun p => reFull p lower) then true
  -- Pattern 7: combined pathway text
  else if reFull (ralts [
      .seq (rlit "regular") (.seq (rplus rws) (.seq (rlit "pathway")
        (.seq (rplus rws) (.seq (rlit "distinction") (.seq (rplus rws) (rlit "pathway")))))),
      .seq (rlit "distinction") (.seq (rplus rws) (.seq (rlit "pathway")
        (.seq (rplus rws) (.seq (rlit "regular") (.seq (rplus rws) (rlit "pathway"))))))])
      lower then true
  else false

/-- Function `is_form_field_or_label` (`extract_text.py`, lines 134–166). -/
def is_form_field_or_label (text : Str) : Bool :=
  let text_clean := pyLower (pyStrip text)
  -- descriptive document titles containing form-related words are allowed
  if text_clean.length > 20 &&
      ([str "application", str "form", str "request", str "proposal"].any
        (fun w => pySubstr w text_clean)) then
    false
  else
    ([
      -- .*:$
      .seq (.star rdot) (.chr ':'),
      -- ^\d+\.\s*$
      .seq (rplus rdigit) (.seq (.chr '.') (.star rws)),
      -- ^(name|address|phone|email|date|time).*:?$
      .seq (rwords ["name", "address", "phone", "email", "date", "time"])
        (.seq (.star rdot) (ropt (.chr ':'))),
      -- ^(enter|select|choose|tick|mark|fill).*
      .seq (rwords ["enter", "select", "choose", "tick", "mark", "fill"]) (.star rdot),
      -- .*\(.*\)$
      .seq (.star rdot) (.seq (.chr '(') (.seq (.star rdot) (.chr ')'))),
      -- .*\[.*\]$
      .seq (.star rdot) (.seq (.chr '[') (.seq (.star rdot) (.chr ']')))
      ] : List Rx).any (fun p => reFull p text_clean) ||
    ([
      -- ^(note|remark|comment|instruction).*:?
      .seq (rwords ["note", "remark", "comment", "instruction"])
        (.seq (.star rdot) (ropt (.chr ':'))),
      -- amount.*rs\.?|rs\.?.*amount
      ralts [
        .seq (rlit "amount") (.seq (.star rdot) (.seq (rlit "rs") (ropt (.chr '.')))),
        .seq (rlit "rs") (.seq (ropt (.chr '.')) (.seq (.star rdot) (rlit "amount")))],
      -- ^\d+\.\s*(amount|advance|required|grant|ltc).*
      .seq (rplus rdigit) (.seq (.chr '.') (.seq (.star rws)
        (.seq (rwords ["amount", "advance", "required", "grant", "ltc"]) (.star rdot)))),
      -- .*advance.*required.*
      .seq (.star rdot) (.seq (rlit "advance") (.seq (.star rdot)
        (.seq (rlit "required") (.star rdot)))),
      -- .*grant.*ltc.*
      .seq (.star rdot) (.seq (rlit "grant") (.seq (.star rdot)
        (.seq (rlit "ltc") (.star rdot))))
      ] : List Rx).any (fun p => reMatch p text_clean)

/-- Function `is_non_meaningful_heading` (`extract_text.py`, lines 6–67): the
Noise/Validity Filter.  `true` means the text is rejected. -/
def is_non_meaningful_heading (text : Str) : Bool :=
  if text.isEmpty || (pyStrip text).length ≤ 3 then true
  else
    let text_clean := pyStrip text
    let lower := pyLower text_clean
    if nonHeadingPats.any (fun p => reFull p lower) then true
    -- pure numbers like "1", "2."
    else if reFull (.seq (rplus rdigit) (ropt (.chr '.'))) text_clean then true
    -- dots/dashes/bullets only
    else if reFull (rplus (.cls (fun c =>
        c == '.' || c == '-' || c == '•' || isPySpace c))) text_clean then true
    -- very short field words
    else if text_clean.length ≤ 5 &&
        [str "date", str "name", str "age", str "no", str "ref", str "id",
         str "s.no", str "version"].contains lower then true
    -- 5+ consecutive dots
    else if reSearch (ratLeast (.chr '.') 5) text_clean then true
    -- "Chapter 1 .... 5"-style TOC entries
    else if reFull (.seq (.star rdot) (.seq (rplus rdigit) (.seq (.star rws)
        (.seq (ratLeast (.chr '.') 3) (.seq (.star rdot) (rplus rdigit))))))
        text_clean then true
    -- signature/form placeholder phrases
    else if [str "signature", str "date signature", str "government servant"].any
        (fun ph => pySubstr ph lower) then true
    else if is_tabular_data text_clean then true
    else if is_form_field_or_label text_clean then true
    else false

/-- Function `is_likely_heading` (`extract_text.py`, lines 169–216). -/
def is_likely_heading (text : Str) : Bool :=
  let text_clean := pyStrip text
  if text_clean.length < 3 || text_clean.length > 200 then false
  else if pyIsDigit (pyReplace (pyReplace text_clean (str ".") []) (str " ") []) then
    false
  else if (pySplit text_clean).length == 1 && text_clean.length ≤ 2 then false
  else if commonNonHeadingPats.any (fun p => reFull p (pyLower text_clean)) then false
  else if (text_clean.headD ' ').isUpper then true
  else if reMatch (.seq (rplus rdigit) (.seq (ropt (.chr '.'))
      (.seq (rplus rws) (.cls Char.isUpper)))) text_clean then true
  else true

/-! ### Data model: the layout collaborator's page geometry -/

structure Span where
  text : Str
  size : ℚ
  flags : Nat
  font : Str
  bbox : ℚ × ℚ × ℚ × ℚ
deriving DecidableEq

structure Line where
  spans : List Span
  bbox : ℚ × ℚ × ℚ × ℚ
deriving DecidableEq

structure Block where
  typ : Nat
  bbox : ℚ × ℚ × ℚ × ℚ
  lines : List Line
deriving DecidableEq

/-- One page: height, blocks, and the bounding boxes of its embedded
images (`page.get_images` / `get_image_bbox`). -/
structure Page where
  height : ℚ
  blocks : List Block
  images : List (ℚ × ℚ × ℚ × ℚ)
deriving DecidableEq

/-- A heading candidate as accumulated in `headings`. -/
structure Heading where
  text : Str
  font_size : ℚ
  bold : Bool
  italic : Bool
  page : Nat
deriving DecidableEq

/-- A regular-pass candidate, which additionally carries `y_pos`. -/
structure PageHeading where
  text : Str
  font_size : ℚ
  bold : Bool
  italic : Bool
  page : Nat
  y_pos : ℚ
deriving DecidableEq

def PageHeading.toHeading (h : PageHeading) : Heading :=
  ⟨h.text, h.font_size, h.bold, h.italic, h.page⟩

/-- Python `round(x, 1)` applied to every span size. -/
def round1 (q : ℚ) : ℚ := (round (q * 10) : ℤ) / 10

/-- Boldness test `(span.get('flags', 0) & 2) or ('Bold' in span.get('font', ''))`. -/
def spanBold (s : Span) : Bool :=
  s.flags &&& 2 != 0 || pySubstr (str "Bold") s.font

/-- Italic test `(span.get('flags', 0) & 1) or ('Italic' in font or 'Oblique' in font)`. -/
def spanItalic (s : Span) : Bool :=
  s.flags &&& 1 != 0 || pySubstr (str "Italic") s.font ||
    pySubstr (str "Oblique") s.font

/-! ### `collections.Counter` -/

/-- Distinct elements in first-occurrence order (Python dicts preserve
insertion order). -/
def pyDistinct {α : Type} [BEq α] (l : List α) : List α :=
  l.foldl (fun acc x => if acc.contains x then acc else acc ++ [x]) []

/-- The `Counter` of a list: insertion-ordered keys with multiplicities. -/
def countsList (l : List ℚ) : List (ℚ × Nat) :=
  (pyDistinct l).map (fun x => (x, l.count x))

/-- Number of distinct keys, `len(counter)`. -/
def numDistinct (l : List ℚ) : Nat := (countsList l).length

/-- The step of the `max`-by-count scan realising `Counter.most_common`
(Python's sort is stable, so ties resolve to the earliest-inserted key). -/
def maxCountStep (best q : ℚ × Nat) : ℚ × Nat := if q.2 > best.2 then q else best

/-- Python `Counter.most_common(1)[0][0]`: a highest-count key; ties resolve to the
earliest-inserted key. -/
def mostCommonSize (l : List ℚ) : ℚ :=
  ((countsList l).foldl maxCountStep ((0 : ℚ), 0)).1

/-- Python `Counter.most_common(2)[1][0]`: the second entry of the stably sorted
count list, i.e. the highest-count key among the remaining ones. -/
def secondMostCommonSize (l : List ℚ) : ℚ :=
  (((countsList l).filter (fun p => p.1 != mostCommonSize l)).foldl
    maxCountStep ((0 : ℚ), 0)).1

def pyMaxQ (l : List ℚ) : ℚ := l.foldl max (l.headD 0)

def pyMinQ (l : List ℚ) : ℚ := l.foldl min (l.headD 0)

/-- Python `sum(l) / len(l)`. -/
def pyAvg (l : List ℚ) : ℚ := l.sum / (l.length : ℚ)

/-! ### Region classifier and image filter -/

/-- Top-`y` of a bbox, `bbox[1]`. -/
def bboxY (b : ℚ × ℚ × ℚ × ℚ) : ℚ := b.2.1

/-- Header/footer-region test (`extract_text.py` lines 283–285, 296, 334):
the block's top y falls outside `[0.1·h, 0.9·h]`. -/
def inHeaderFooter (blockY h : ℚ) : Bool :=
  decide (blockY < h * (1/10)) || decide (blockY > h * (9/10))

/-- Function `is_text_from_image_region` (`extract_text.py`, lines 219–272). -/
def is_text_from_image_region (bbox : ℚ × ℚ × ℚ × ℚ) (page : Page) : Bool :=
  if page.images.isEmpty then false
  else
    let (tx1, ty1, tx2, ty2) := bbox
    let cx := (tx1 + tx2) / 2
    let cy := (ty1 + ty2) / 2
    page.images.any (fun img =>
      let ix1 := img.1 - 10
      let iy1 := img.2.1 - 10
      let ix2 := img.2.2.1 + 10
      let iy2 := img.2.2.2 + 10
      (decide (ix1 ≤ cx) && decide (cx ≤ ix2) && decide (iy1 ≤ cy) &&
        decide (cy ≤ iy2)) ||
      (let ox := max 0 (min tx2 ix2 - max tx1 ix1)
       let oy := max 0 (min ty2 iy2 - max ty1 iy1)
       decide (0 < ox) && decide (0 < oy) &&
         (let ta := (tx2 - tx1) * (ty2 - ty1)
          decide (0 < ta) && decide (ta * (3/10) < ox * oy))))

/-! ### Per-page pipeline (`extract_pdf_text_with_styles`) -/

def blockSpans (b : Block) : List Span := b.lines.flatMap (·.spans)

def blockFontSizes (b : Block) : List ℚ :=
  (blockSpans b).map (fun s => round1 s.size)

/-- First pass, page 0 only (lines 287–324): a header/footer block
qualifies as a potential document title. -/
def isPotentialTitleBlock (page : Page) (b : Block) : Bool :=
  inHeaderFooter (bboxY b.bbox) page.height &&
  (let spans := blockSpans b
   let sizes := blockFontSizes b
   let btext := pyStrip (spans.flatMap (·.text))
   !spans.isEmpty && !sizes.isEmpty && !btext.isEmpty &&
   (decide (pyAvg sizes ≥ 10) && decide (5 ≤ btext.length) &&
    decide (btext.length ≤ 200) && !pyIsDigit btext))

def potentialTitleBlocks (pageNum : Nat) (page : Page) : List (Nat × Block) :=
  if pageNum == 0 then
    page.blocks.enum.filter (fun p => p.2.typ == 0 && isPotentialTitleBlock page p.2)
  else []

/-- One entry of `all_lines_data`. -/
structure LineData where
  blockIdx : Nat
  lineIdx : Nat
  block : Block
  spans : List Span
  sizes : List ℚ
  y_pos : ℚ
deriving DecidableEq

/-- Second pass (lines 326–347): collect the body-region (or promoted
potential-title) lines with their rounded sizes. -/
def pageLineData (pageNum : Nat) (page : Page) : List LineData :=
  let ptIdxs := (potentialTitleBlocks pageNum page).map (·.1)
  page.blocks.enum.flatMap (fun p =>
    let (bi, b) := p
    if b.typ != 0 then []
    else if inHeaderFooter (bboxY b.bbox) page.height && !ptIdxs.contains bi then []
    else b.lines.enum.map (fun q =>
      { blockIdx := bi, lineIdx := q.1, block := b, spans := q.2.spans,
        sizes := q.2.spans.map (fun s => round1 s.size), y_pos := bboxY q.2.bbox }))

/-- The page's font-size histogram input (`font_sizes`). -/
def pageFontSizes (pageNum : Nat) (page : Page) : List ℚ :=
  (pageLineData pageNum page).flatMap (·.sizes)

/-- Font Statistics Engine (lines 352–360). -/
def computeBodyTextSize (fontSizes : List ℚ) : ℚ :=
  let mc := mostCommonSize fontSizes
  if decide (mc ≥ 20) && decide (1 < numDistinct fontSizes) then
    secondMostCommonSize fontSizes
  else mc

/-- Heading-block test (lines 384–400), a function of the page number,
the page's body text size, and the block's rounded span sizes. -/
def blockIsHeading (pageNum : Nat) (bodySize : ℚ) (blockSizes : List ℚ) : Bool :=
  let avg := pyAvg blockSizes
  if numDistinct blockSizes ≤ 3 && decide (avg > bodySize * (3/2)) &&
      decide (mostCommonSize blockSizes ≥ bodySize * (3/2)) then true
  else if pageNum == 0 && decide (avg > bodySize * 2) &&
      numDistinct blockSizes ≤ 3 then true
  else false

structure PassState where
  headings : List Heading
  processed : List Nat
deriving DecidableEq

/-- Heading-block text reconstruction (lines 402–419).  The source loop at
lines 408–410 is mis-indented: the membership test at line 413 runs once
after the loop, on the final span's size and boldness, so at most that
final span's text reaches `block_text_parts`. -/
def blockPassText (spans : List Span) (bodySize : ℚ) : Str :=
  let sizes := spans.map (fun s => round1 s.size)
  let mainSize := mostCommonSize sizes
  let significant := sizes.filter (fun s => decide (s ≥ bodySize))
  let minSig := if significant.isEmpty then mainSize else pyMinQ significant
  match spans.getLast? with
  | none => []
  | some lastSpan =>
    let parts : List Str :=
      if decide (round1 lastSpan.size ≥ minSig * (4/5)) || spanBold lastSpan then
        [lastSpan.text]
      else []
    collapseWs (pyReplace (pyStrip parts.flatten) (str "  ") (str " "))

/-- Heading-block pass, one `all_lines_data` entry (lines 363–436). -/
def blockPassStep (pageNum : Nat) (page : Page) (bodySize : ℚ)
    (st : PassState) (ld : LineData) : PassState :=
  if st.processed.contains ld.blockIdx then st
  else
    let spans := blockSpans ld.block
    let sizes := blockFontSizes ld.block
    if spans.isEmpty || sizes.isEmpty then st
    else if blockIsHeading pageNum bodySize sizes then
      let mainSize := mostCommonSize sizes
      let htext := blockPassText spans bodySize
      if !htext.isEmpty && htext.length > 3 &&
          !is_non_meaningful_heading htext &&
          !is_text_from_image_region ld.block.bbox page then
        if is_likely_heading htext then
          let h : Heading :=
            { text := htext, font_size := mainSize,
              bold := spans.any (fun s => round1 s.size == mainSize && spanBold s),
              italic := spans.any (fun s => round1 s.size == mainSize && spanItalic s),
              page := pageNum }
          { headings := st.headings ++ [h],
            processed := st.processed ++ [ld.blockIdx] }
        else st
      else st
    else st

def blockPass (pageNum : Nat) (page : Page) (bodySize : ℚ)
    (lines : List LineData) : PassState :=
  lines.foldl (blockPassStep pageNum page bodySize) ⟨[], []⟩

/-! Mixed-content line pass (lines 438–485). -/

structure MixedState where
  headings : List Heading
  processedLines : List (Nat × Nat)
deriving DecidableEq

/-- Spans that are large and bold (≥ 15 pt and bold) or very large (≥ 18 pt). -/
def lineLargeBoldSpans (spans : List Span) : List Span :=
  spans.filter (fun s =>
    (decide (round1 s.size ≥ 15) && spanBold s) || decide (round1 s.size ≥ 18))

def mixedLineStep (pageNum : Nat) (blockIdx : Nat) (st : MixedState)
    (p : Nat × Line) : MixedState :=
  if st.processedLines.contains (blockIdx, p.1) then st
  else
    let lbs := lineLargeBoldSpans p.2.spans
    if !lbs.isEmpty then
      let htext := collapseWs (pyStrip (lbs.flatMap (·.text)))
      if !htext.isEmpty && htext.length > 3 &&
          !is_non_meaningful_heading htext && is_likely_heading htext then
        let h : Heading :=
          { text := htext, font_size := pyAvg (lbs.map (fun s => round1 s.size)),
            bold := true, italic := lbs.any spanItalic, page := pageNum }
        { headings := st.headings ++ [h],
          processedLines := st.processedLines ++ [(blockIdx, p.1)] }
      else st
    else st

def mixedPass (pageNum : Nat) (lines : List LineData)
    (processedBlocks : List Nat) : MixedState :=
  lines.foldl (fun st ld =>
    if processedBlocks.contains ld.blockIdx then st
    else ld.block.lines.enum.foldl (mixedLineStep pageNum ld.blockIdx) st)
    ⟨[], []⟩

/-! Title-region pass (lines 487–551). -/

/-- The span texts the title-region pass keeps: those at the block's most
common size (lines 509–512). -/
def titleSpanTexts (spans : List Span) (mainSize : ℚ) : List Str :=
  (spans.filter (fun s => round1 s.size == mainSize)).map (·.text)

/-- Title-region text reconstruction (lines 508–526): exact-duplicate
removal preserving order, space join, one double-space collapse. -/
def titleBlockText (spans : List Span) (mainSize : ℚ) : Str :=
  pyReplace (pyStrip (joinSpace (pyDistinct (titleSpanTexts spans mainSize))))
    (str "  ") (str " ")

def titlePassStep (pageNum : Nat) (page : Page) (st : PassState)
    (p : Nat × Block) : PassState :=
  if st.processed.contains p.1 then st
  else
    let spans := blockSpans p.2
    let sizes := blockFontSizes p.2
    if spans.isEmpty || sizes.isEmpty then st
    else
      let mainSize := mostCommonSize sizes
      let htext := titleBlockText spans mainSize
      if !htext.isEmpty && htext.length > 3 then
        let isPotTitle := pageNum == 0 && decide (mainSize ≥ 10) &&
          htext.length > 10 &&
          !reMatch (.seq (rplus rdigit) (.chr '.')) htext &&
          (pySubstr (str "application") (pyLower htext) ||
           pySubstr (str "form") (pyLower htext))
        let isNormal := !is_non_meaningful_heading htext &&
          !is_text_from_image_region p.2.bbox page && is_likely_heading htext
        if isPotTitle || isNormal then
          let h : Heading :=
            { text := htext, font_size := mainSize,
              bold := spans.any (fun s => round1 s.size == mainSize && spanBold s),
              italic := spans.any (fun s => round1 s.size == mainSize && spanItalic s),
              page := pageNum }
          { headings := st.headings ++ [h], processed := st.processed ++ [p.1] }
        else st
      else st

def titlePass (pageNum : Nat) (page : Page) (processed0 : List Nat) : PassState :=
  (potentialTitleBlocks pageNum page).foldl (titlePassStep pageNum page)
    ⟨[], processed0⟩

/-! Regular line pass (lines 553–647). -/

/-- Stable insertion sort of `all_lines_data` by `y_pos` (Python
`list.sort` is stable). -/
def insertByY (x : LineData) : List LineData → List LineData
  | [] => [x]
  | y :: ys => if decide (x.y_pos < y.y_pos) then x :: y :: ys else y :: insertByY x ys

def stableSortByY (l : List LineData) : List LineData :=
  l.foldl (fun acc x => insertByY x acc) []

/-- Python `' '.join(span['text'] for span in spans).strip()`. -/
def lineTextOf (spans : List Span) : Str :=
  pyStrip (joinSpace (spans.map (·.text)))

/-- The keyword list of line 584. -/
def docContentWords : List String :=
  ["application", "form", "report", "document", "manual", "guide", "proposal",
   "rfp", "request", "plan", "business", "library", "digital", "ontario",
   "summary", "background", "approach", "evaluation", "appendix", "phase",
   "milestone", "timeline", "access", "guidance", "training", "support",
   "funding", "overview", "foundation", "extension", "equitable", "shared",
   "governance", "purchasing", "licensing", "technological", "preamble",
   "membership", "appointment", "accountability", "communication",
   "financial", "administrative", "policies"]

/-- The exact-heading list of line 587. -/
def exactHeadingWords : List String :=
  ["revision history", "table of contents", "acknowledgements", "introduction",
   "overview", "references", "summary", "background", "timeline", "milestones",
   "approach", "evaluation", "appendix"]

/-- The starter alternation of line 588. -/
def headingStartersRx : Rx :=
  rwords ["revision", "table", "acknowledgement", "introduction", "overview",
    "reference", "summary", "background", "timeline", "milestone", "approach",
    "evaluation", "appendix"]

/-- The bold-keyword list of line 602. -/
def boldHeadingWords : List String :=
  ["timeline", "access", "guidance", "training", "support", "funding",
   "equitable", "shared", "local", "provincial", "technological", "preamble",
   "terms", "membership", "appointment", "chair", "meetings",
   "accountability", "financial"]

/-- The `is_heading` cascade of lines 576–603 for one line's spans. -/
def regularLineIsHeading (bodySize : ℚ) (spans : List Span) (first : Span) :
    Bool :=
  let firstSize := round1 first.size
  let firstBold := spanBold first
  let firstItalic := spanItalic first
  if decide (firstSize > bodySize * (7/5)) then true
  else if (firstBold || firstItalic) && decide (firstSize ≥ bodySize * (6/5)) then
    true
  else if decide (firstSize ≥ bodySize * (11/10)) then
    let lineText := lineTextOf spans
    let lt := pyLower lineText
    docContentWords.any (fun w => pySubstr (str w) lt) ||
    reMatch (.seq (rplus rdigit) (.seq (ropt (.chr '.'))
      (.seq (rplus rws) (.cls Char.isUpper)))) lineText ||
    reMatch (.seq (rplus rdigit) (.seq (.chr '.') (.seq (rplus rdigit)
      (.seq (ropt (.chr '.')) (.seq (rplus rws) (.cls Char.isUpper)))))) lineText ||
    (exactHeadingWords.map str).contains lt ||
    reMatch headingStartersRx lt ||
    (pyEndsWith lineText (str ":") && lineText.length > 3) ||
    reMatch (ralts [rlit "for each", rlit "what could",
      .seq (rlit "phase ") (rplus (rAnyOf "IVX"))]) lt ||
    ((pySplit lineText).length ≥ 2 && lineText.any Char.isUpper)
  else if firstBold && (lineTextOf spans).length > 5 then
    let lineText := lineTextOf spans
    let lt := pyLower lineText
    !pyIsDigit lineText &&
    !reMatch (.seq (rwords ["page", "pg", "p."])
      (.seq (.star rws) (rplus rdigit))) lt &&
    !reMatch (.seq (rwords ["fig", "figure", "table", "tab"])
      (.seq (.star rws) (rplus rdigit))) lt &&
    (pySplit lineText).length ≤ 10 &&
    (pyEndsWith lineText (str ":") ||
     boldHeadingWords.any (fun w => pySubstr (str w) lt))
  else false

/-- Python `if not unique_words or word != unique_words[-1]`: drop
immediately-repeated identical tokens. -/
def dedupAdjacent (words : List Str) : List Str :=
  words.foldl (fun acc w =>
    if acc.getLast? == some w then acc else acc ++ [w]) []

/-- Regular-pass text reconstruction (lines 621–631): join the selected
spans, then drop immediately-repeated identical words. -/
def regularHeadingText (headingSpans : List Span) : Str :=
  joinSpace (dedupAdjacent (pySplit (pyStrip (joinSpace (headingSpans.map (·.text))))))

/-- One regular-pass line (lines 559–647): emits `some` candidate, `none`
for a non-heading line, or nothing when a detected heading is filtered. -/
def regularLineStep (pageNum : Nat) (page : Page) (bodySize : ℚ)
    (processed : List Nat) (acc : List (Option PageHeading)) (ld : LineData) :
    List (Option PageHeading) :=
  if processed.contains ld.blockIdx then acc
  else
    match ld.spans with
    | [] => acc
    | first :: _ =>
      if regularLineIsHeading bodySize ld.spans first then
        let firstSize := round1 first.size
        let headingSpans := ld.spans.filter (fun s =>
          round1 s.size == firstSize &&
          (decide (firstSize > bodySize) || spanBold s || spanItalic s))
        if headingSpans.isEmpty then acc
        else
          let htext := regularHeadingText headingSpans
          if !htext.isEmpty && !is_non_meaningful_heading htext &&
              is_likely_heading htext then
            if !is_text_from_image_region first.bbox page then
              let h : PageHeading :=
                { text := htext, font_size := firstSize,
                  bold := headingSpans.any spanBold,
                  italic := headingSpans.any spanItalic,
                  page := pageNum, y_pos := ld.y_pos }
              acc ++ [some h]
            else acc
          else acc
      else acc ++ [none]

/-! Heading Merge (lines 649–675). -/

/-- The five-way merge condition of the inner `while` (lines 660–668). -/
def mergeCond (cur nxt : PageHeading) : Bool :=
  cur.font_size == nxt.font_size && cur.bold == nxt.bold &&
  cur.italic == nxt.italic &&
  !pyEndsWith cur.text (str ".") && !pyEndsWith cur.text (str "?") &&
  !pyEndsWith cur.text (str "!") &&
  (cur.text ++ ' ' :: nxt.text).length ≤ 100

/-- Absorb successors into `cur` while the merge condition holds; stops at
`none` (a non-heading line) or a mismatching candidate. -/
def mergeChain : PageHeading → List (Option PageHeading) →
    PageHeading × List (Option PageHeading)
  | cur, [] => (cur, [])
  | cur, none :: rest => (cur, none :: rest)
  | cur, some h :: rest =>
    if mergeCond cur h then
      mergeChain { cur with text := cur.text ++ ' ' :: h.text } rest
    else (cur, some h :: rest)

def mergeAllF : Nat → List (Option PageHeading) → List Heading
  | 0, _ => []
  | _ + 1, [] => []
  | fuel + 1, none :: rest => mergeAllF fuel rest
  | fuel + 1, some h :: rest =>
    let cr := mergeChain h rest
    cr.1.toHeading :: mergeAllF fuel cr.2

def mergeAll (l : List (Option PageHeading)) : List Heading :=
  mergeAllF l.length l

/-! Whole page and whole document. -/

def regularCandidates (pageNum : Nat) (page : Page) (bodySize : ℚ)
    (processed : List Nat) (lines : List LineData) :
    List (Option PageHeading) :=
  (stableSortByY lines).foldl (regularLineStep pageNum page bodySize processed) []

/-- One page of `extract_pdf_text_with_styles` (lines 279–677). -/
def processPage (pageNum : Nat) (page : Page) : List Heading :=
  let lines := pageLineData pageNum page
  let fontSizes := pageFontSizes pageNum page
  if fontSizes.isEmpty then []
  else
    let bodySize := computeBodyTextSize fontSizes
    let bp := blockPass pageNum page bodySize lines
    let mp := mixedPass pageNum lines bp.processed
    let tp := titlePass pageNum page bp.processed
    let cands := regularCandidates pageNum page bodySize tp.processed lines
    bp.headings ++ mp.headings ++ tp.headings ++ mergeAll cands

/-- Function `extract_pdf_text_with_styles`: ordered concatenation over pages. -/
def extract_pdf_text_with_styles (doc : List Page) : List Heading :=
  doc.enum.flatMap (fun p => processPage p.1 p.2)

/-! ### `format.py`: `assign_heading_levels` -/

structure OutlineEntry where
  level : Str
  text : Str
  page : Nat
deriving DecidableEq

structure DocOutline where
  title : Str
  outline : List OutlineEntry
deriving DecidableEq

/-- Python `\w` (ASCII). -/
def isWordChar (c : Char) : Bool := c.isAlphanum || c == '_'

/-- Remainders after each word-boundary-delimited occurrence of `w` in the
suffix `s`, whose preceding character (if any) is `prevC`. -/
def wordOccTails (w : Str) : Option Char → Str → List Str
  | prevC, s =>
    let okBefore := match prevC with
      | none => true
      | some c => !isWordChar c
    let okHere :=
      okBefore && strPref w s &&
      (match s.drop w.length with
       | [] => true
       | c :: _ => !isWordChar c)
    let here := if okHere then [s.drop w.length] else []
    match s with
    | [] => here
    | c :: rest => here ++ wordOccTails w (some c) rest

def modalVerbWords : List String :=
  ["will", "shall", "must", "should", "could", "would", "may", "might"]

def modalObjectWords : List String :=
  ["be", "have", "do", "provide", "include", "ensure"]

/-- Python `re.search(r'\b(will|...)\b.*\b(be|...)\b', s)` of `format.py` line 60. -/
def modalPhraseSearch (s : Str) : Bool :=
  modalVerbWords.any (fun w1 =>
    (wordOccTails (str w1) none s).any (fun rest =>
      modalObjectWords.any (fun w2 =>
        !(wordOccTails (str w2) ((str w1).getLastD 'a') rest).isEmpty)))

def monthsRx : Rx :=
  .seq (rwords ["january", "february", "march", "april", "may", "june",
    "july", "august", "september", "october", "november", "december"])
    (.seq (rplus rws) (.seq (rplus rdigit) (.seq (ropt (.chr ','))
      (.seq (rplus rws) (rrep rdigit 4)))))

def pathwayRxs : List Rx := [
  .seq (rlit "regular") (.seq (rplus rws) (rlit "pathway")),
  .seq (rlit "distinction") (.seq (rplus rws) (rlit "pathway")),
  .seq (rlit "honor") (.seq (ropt (.chr 's')) (.seq (rplus rws) (rlit "pathway"))),
  .seq (rlit "advanced") (.seq (rplus rws) (rlit "pathway")),
  ralts [
    .seq (rlit "regular") (.seq (rplus rws) (.seq (rlit "pathway")
      (.seq (rplus rws) (.seq (rlit "distinction") (.seq (rplus rws) (rlit "pathway")))))),
    .seq (rlit "distinction") (.seq (rplus rws) (.seq (rlit "pathway")
      (.seq (rplus rws) (.seq (rlit "regular") (.seq (rplus rws) (rlit "pathway"))))))]
]

def bodyTextStarters : List String :=
  ["it is expected", "there will be", "funding from", "result:",
   "is every indication"]

/-- The quality pre-filter of `assign_heading_levels` (`format.py`,
lines 22–61). -/
def headingPassesPreFilter (isPathwayDoc : Bool) (h : Heading) : Bool :=
  let text := pyStrip h.text
  let lower := pyLower text
  if text.length < 2 || pyIsDigit text ||
      [str "name", str "date", str "amount", str "total", str "yes", str "no",
       str "relationship", str "version"].contains lower ||
      reFull (.seq (rplus rdigit) (.seq (ropt (.chr '.')) (.star rws))) text ||
      reFull (.seq (.cls Char.isUpper) (.star rws)) text ||
      reFull (.seq (rrange (.cls Char.isUpper) 1 3) (.star rdigit)) text ||
      reMatch (.seq (rwords ["page", "pg", "p."])
        (.seq (.star rws) (rplus rdigit))) lower ||
      reMatch (.seq (rwords ["fig", "figure"])
        (.seq (.star rws) (rplus rdigit))) lower ||
      reMatch (.seq (rwords ["table", "tab", "chart"])
        (.seq (rplus rws) (rplus rdigit))) lower ||
      reMatch monthsRx lower ||
      reMatch (.seq (rrange rdigit 1 2) (.seq (rAnyOf "/-")
        (.seq (rrange rdigit 1 2) (.seq (rAnyOf "/-") (rrange rdigit 2 4))))) text ||
      reMatch (.seq (rplus rdigit) (.seq (rAnyOf "/-")
        (.seq (rplus rdigit) (.seq (rAnyOf "/-") (rplus rdigit))))) text ||
      pyCountChar text ' ' > 20 || text.length > 150 then false
  else if isPathwayDoc && pathwayRxs.any (fun p => reFull p lower) then false
  else
    (pySplit text).length ≥ 1 &&
    ((pySplit text).length > 1 || text.length ≥ 5) &&
    !reFull (.seq (rplus rdigit) (.seq (.star (.seq (.chr '.') (rplus rdigit)))
      (.star rws))) text &&
    !(bodyTextStarters.any (fun w => pyStartsWith lower (str w)) ||
      pyCountChar text '.' > 2 ||
      modalPhraseSearch lower)

/-- Flag `is_pathway_document` (`format.py` line 20). -/
def isPathwayDocument (hs : List Heading) : Bool :=
  hs.any (fun h => pySubstr (str "pathway") (pyLower h.text))

def filteredHeadings (hs : List Heading) : List Heading :=
  hs.filter (headingPassesPreFilter (isPathwayDocument hs))

/-! Title Selector (`format.py`, lines 79–155). -/

def titleDocWords : List String :=
  ["application", "form", "report", "document", "manual", "guide", "proposal",
   "contract", "agreement", "overview", "foundation", "extension", "syllabus",
   "rfp", "request", "plan", "business", "library", "digital", "ontario"]

def greetingWords : List String :=
  ["hope", "see", "there", "welcome", "thank", "please"]

/-- Pattern `^[A-Z][a-z]+ [a-z]+ [a-z]+ [a-z]+`. -/
def formalTitleRx : Rx :=
  .seq (.cls Char.isUpper) (.seq (rplus rlower) (.seq (.chr ' ')
    (.seq (rplus rlower) (.seq (.chr ' ') (.seq (rplus rlower)
      (.seq (.chr ' ') (rplus rlower)))))))

/-- The title-component filter of lines 100–113, applied to the stripped
heading text. -/
def validTitlePart (text : Str) : Bool :=
  let lower := pyLower text
  text.length > 5 && !pyIsDigit text && !pyEndsWith text (str ":") &&
  !(text.take 5).contains '.' &&
  !([str "page ", str "fig ", str "figure ", str "table ", str "version ",
     str "revision "].any (fun w => pyStartsWith lower w)) &&
  !reMatch (.seq (rplus rdigit) (.chr '.')) text &&
  !reFull (.seq (rrange (.cls Char.isUpper) 1 5) (.star rdigit)) text &&
  !([str "name", str "date", str "amount", str "relationship",
     str "signature"].contains lower) &&
  !pyEndsWith text (str "!") &&
  !(greetingWords.any (fun w => pySubstr (str w) lower)) &&
  (titleDocWords.any (fun w => pySubstr (str w) lower) ||
   reMatch formalTitleRx text ||
   (pySplit text).length ≥ 4) &&
  (pySplit text).length ≥ 2

def rfpKeywords : List String :=
  ["rfp", "request", "proposal", "present", "developing", "business", "plan",
   "digital", "library", "ontario"]

/-- Python `max(parts, key=len)`: the first longest element. -/
def maxByLen (l : List Str) : Str :=
  l.foldl (fun best x => if x.length > best.length then x else best) (l.headD [])

/-- Stable descending insertion by `font_size` (`list.sort` with
`reverse=True` is stable). -/
def insertDescBySize (x : Heading) : List Heading → List Heading
  | [] => [x]
  | y :: ys =>
    if decide (x.font_size > y.font_size) then x :: y :: ys
    else y :: insertDescBySize x ys

def sortDescBySize (l : List Heading) : List Heading :=
  l.foldl (fun acc x => insertDescBySize x acc) []

/-- Stable descending insertion by length (`sorted(key=len, reverse=True)`). -/
def insertDescByLen (x : Str) : List Str → List Str
  | [] => [x]
  | y :: ys =>
    if x.length > y.length then x :: y :: ys else y :: insertDescByLen x ys

def sortDescByLen (l : List Str) : List Str :=
  l.foldl (fun acc x => insertDescByLen x acc) []

/-- Word-level dedup across RFP fragments (lines 137–149): fragments in
descending length order, keeping each cleaned word once. -/
def rfpTitleWords (frags : List Str) : List Str :=
  ((sortDescByLen frags).foldl (fun st frag =>
    (pySplit frag).foldl (fun st2 w =>
      let wc := pyStripChars (str ".,!?:") (pyLower w)
      if !st2.2.contains wc && wc.length > 1 then
        (st2.1 ++ [w], st2.2 ++ [wc])
      else st2) st) (([], []) : List Str × List Str)).1

/-- The hard-coded RFP title of line 134. -/
def rfpHardcodedTitle : Str :=
  str "RFP:Request for Proposal To Present a Proposal for Developing the Business Plan for the Ontario Digital Library"

/-- Title Selector: title from the filtered headings (lines 79–155). -/
def computeTitle (headings : List Heading) : Str :=
  let fp := headings.filter (fun h => h.page == 0)
  if fp.isEmpty then []
  else
    let sorted := sortDescBySize fp
    let largest := (sorted.headD ⟨[], 0, false, false, 0⟩).font_size
    let largestHs := sorted.filter (fun h => h.font_size == largest)
    let validParts := (largestHs.map (fun h => pyStrip h.text)).filter validTitlePart
    if validParts.isEmpty then []
    else
      let rfpFrags := validParts.filter (fun p =>
        rfpKeywords.any (fun w => pySubstr (str w) (pyLower p)))
      if !rfpFrags.isEmpty then
        let combined := pyLower (joinSpace rfpFrags)
        if pySubstr (str "rfp") combined &&
            ([str "request", str "proposal", str "business", str "plan",
              str "ontario", str "digital", str "library"].any
              (fun w => pySubstr w combined)) then
          rfpHardcodedTitle
        else
          let uw := rfpTitleWords rfpFrags
          if uw.isEmpty then maxByLen rfpFrags else joinSpace uw
      else
        if validParts.length == 1 then validParts.headD []
        else maxByLen validParts

/-- Exclusion of title components (lines 157–164): drop any heading whose
text equals a title part or occurs as a substring of the title. -/
def nonTitleHeadings (hs : List Heading) (title : Str) : List Heading :=
  let titleParts : List Str := if title.isEmpty then [] else [title]
  hs.filter (fun h =>
    !titleParts.contains h.text && (title.isEmpty || !pySubstr h.text title))

/-! Level Assignment (lines 166–231). -/

def insertDescQ (x : ℚ) : List ℚ → List ℚ
  | [] => [x]
  | y :: ys => if decide (x > y) then x :: y :: ys else y :: insertDescQ x ys

def sortDescQ (l : List ℚ) : List ℚ :=
  l.foldl (fun acc x => insertDescQ x acc) []

/-- List `sorted_font_sizes`: the distinct font sizes of the surviving headings,
descending. -/
def sortedSizesOf (nt : List Heading) : List ℚ :=
  sortDescQ (pyDistinct (nt.map (·.font_size)))

def availableLevels : List Str := [str "H1", str "H2", str "H3", str "H4"]

/-- The threshold comparisons of lines 200–215: `rangeSize` is a quarter of
the numeric span, and a size's band against the three thresholds
determines its level. -/
def bucketLevel (maxSize rangeSize s : ℚ) : Str :=
  if decide (s > maxSize - rangeSize) then str "H1"
  else if decide (s > maxSize - 2 * rangeSize) then str "H2"
  else if decide (s > maxSize - 3 * rangeSize) then str "H3"
  else str "H4"

/-- Mapping `level_mapping` (lines 178–219). -/
def buildLevelMapping (sortedFontSizes : List ℚ) : List (ℚ × Str) :=
  if sortedFontSizes.isEmpty then []
  else if sortedFontSizes.length ≤ 4 then
    sortedFontSizes.zip availableLevels
  else
    let minSize := pyMinQ sortedFontSizes
    let maxSize := pyMaxQ sortedFontSizes
    let sizeRange := maxSize - minSize
    if decide (sizeRange > 0) then
      let rangeSize := sizeRange / 4
      sortedFontSizes.map (fun s => (s, bucketLevel maxSize rangeSize s))
    else
      sortedFontSizes.map (fun s => (s, str "H1"))

/-- Python `level_mapping.get(font_size, 'H4')`. -/
def lookupLevel (m : List (ℚ × Str)) (s : ℚ) : Str :=
  match m.find? (fun p => p.1 == s) with
  | some p => p.2
  | none => str "H4"

/-- Function `assign_heading_levels` (`format.py`, lines 8–236).  The style grouping
of lines 68–77 is dead code (its result is recomputed at lines 166–175)
and is omitted. -/
def assign_heading_levels (hs : List Heading) : DocOutline :=
  if hs.isEmpty then ⟨[], []⟩
  else
    let filtered := filteredHeadings hs
    if filtered.isEmpty then ⟨[], []⟩
    else
      let title := computeTitle filtered
      let nt := nonTitleHeadings filtered title
      let mapping := buildLevelMapping (sortedSizesOf nt)
      ⟨title, nt.map (fun h => ⟨lookupLevel mapping h.font_size, h.text, h.page⟩)⟩

/-- Function `process_pdf_to_structured_format` (`format.py`, lines 239–249). -/
def process_pdf_to_structured_format (doc : List Page) : DocOutline :=
  assign_heading_levels (extract_pdf_text_with_styles doc)

/-! ### Concrete example documents -/

def mkSpan (t : String) (sz : ℚ) (bbox : ℚ × ℚ × ℚ × ℚ) : Span :=
  ⟨str t, sz, 0, str "F", bbox⟩

/-- A one-page document whose first-page header block
"signature application" is admitted through the potential-title branch
(bypassing the Noise/Validity Filter), while the body block
"Annual Report Overview" becomes the document title. -/
def exPageA : Page :=
  { height := 100,
    blocks := [
      ⟨0, (10, 5, 200, 12),
        [⟨[mkSpan "signature application" 14 (10, 5, 200, 12)], (10, 5, 200, 12)⟩]⟩,
      ⟨0, (10, 20, 200, 30),
        [⟨[mkSpan "Annual Report Overview" 30 (10, 20, 200, 30)], (10, 20, 200, 30)⟩]⟩,
      ⟨0, (10, 40, 200, 80),
        [⟨[mkSpan "lorem" 11 (10, 40, 40, 48), mkSpan "ipsum" 11 (40, 40, 70, 48),
           mkSpan "dolor" 11 (70, 40, 100, 48), mkSpan "sit" 11 (100, 40, 120, 48),
           mkSpan "amet" 11 (120, 40, 150, 48)], (10, 40, 200, 48)⟩]⟩],
    images := [] }

def exDocA : List Page := [exPageA]

/-- A one-page document where the heading-block pass emits "Section" and
the regular line pass emits "Overview" with identical style, adjacent in
reading order. -/
def exPageB : Page :=
  { height := 100,
    blocks := [
      ⟨0, (10, 20, 200, 28),
        [⟨[mkSpan "Section" 16 (10, 20, 200, 28)], (10, 20, 200, 28)⟩]⟩,
      ⟨0, (10, 30, 200, 40),
        [⟨[mkSpan "Overview" 16 (10, 30, 200, 36)], (10, 30, 200, 36)⟩,
         ⟨[mkSpan "body" 10 (10, 36, 40, 40), mkSpan "body" 10 (40, 36, 70, 40),
           mkSpan "body" 10 (70, 36, 100, 40)], (10, 36, 200, 40)⟩]⟩],
    images := [] }

def exDocB : List Page := [exPageB]

/-- A page dominated by a very large font (≥ 20): body text size falls back
to the second-most-frequent size. -/
def exPageC : Page :=
  { height := 100,
    blocks := [
      ⟨0, (10, 20, 200, 30),
        [⟨[mkSpan "Giant" 20 (10, 20, 40, 30), mkSpan "Title" 20 (40, 20, 70, 30),
           mkSpan "Words" 20 (70, 20, 100, 30), mkSpan "Here" 20 (100, 20, 120, 30),
           mkSpan "Now" 20 (120, 20, 140, 30)], (10, 20, 200, 30)⟩]⟩,
      ⟨0, (10, 40, 200, 48),
        [⟨[mkSpan "small" 11 (10, 40, 40, 48), mkSpan "text" 11 (40, 40, 70, 48)],
          (10, 40, 200, 48)⟩]⟩],
    images := [] }

/-- A page with a single non-text block: no body font sizes at all. -/
def exPageD : Page := { height := 100, blocks := [⟨1, (0, 0, 50, 50), []⟩], images := [] }

/-! ### Helper lemmas -/

theorem strPref_refl (s : Str) : strPref s s = true := by
  induction s with
  | nil => rfl
  | cons a as ih => simp [strPref, ih]

theorem pySubstr_self (s : Str) : pySubstr s s = true := by
  cases s with
  | nil => rfl
  | cons a as => simp [pySubstr, strPref_refl]

theorem foldl_preserve {σ α : Type} {P : σ → Prop} {f : σ → α → σ}
    (hf : ∀ s a, P s → P (f s a)) :
    ∀ (l : List α) (s : σ), P s → P (l.foldl f s) := by
  intro l
  induction l with
  | nil => intro s hs; simpa using hs
  | cons a t ih => intro s hs; simpa using ih (f s a) (hf s a hs)

/-! ### Claim theorems -/

/-- C8: the region-exclusion boundary is inclusive to the body: a block
whose top y equals exactly `0.10·h` (or `0.90·h`) is body-region, while a
top y strictly below `0.10·h` (or strictly above `0.90·h`) is
header/footer-region. -/
theorem c8_region_boundary (h : ℚ) (hpos : 0 < h) :
    inHeaderFooter (h * (1/10)) h = false ∧
    (∀ y : ℚ, y < h * (1/10) → inHeaderFooter y h = true) ∧
    inHeaderFooter (h * (9/10)) h = false ∧
    (∀ y : ℚ, y > h * (9/10) → inHeaderFooter y h = true) := by
  refine ⟨?_, ?_, ?_, ?_⟩
  · simp only [inHeaderFooter, Bool.or_eq_false_iff, decide_eq_false_iff_not, not_lt]
    constructor
    · exact le_refl _
    · nlinarith
  · intro y hy
    simp only [inHeaderFooter, Bool.or_eq_true, decide_eq_true_eq]
    exact Or.inl hy
  · simp only [inHeaderFooter, Bool.or_eq_false_iff, decide_eq_false_iff_not, not_lt]
    constructor
    · nlinarith
    · exact le_refl _
  · intro y hy
    simp only [inHeaderFooter, Bool.or_eq_true, decide_eq_true_eq]
    exact Or.inr hy

/-- Witness for C8 at `h = 100`: the boundary `y = 10` is body-region and
`y = 9.999` is header-region. -/
theorem c8_region_boundary_witness :
    (0 : ℚ) < 100 ∧ inHeaderFooter (100 * (1/10)) 100 = false ∧
    inHeaderFooter (9999/1000) 100 = true :=
  ⟨by norm_num, (c8_region_boundary 100 (by norm_num)).1,
   (c8_region_boundary 100 (by norm_num)).2.1 (9999/1000) (by norm_num)⟩

/-- C9: a page whose collected body-region font-size histogram is empty is
skipped without error and contributes zero heading candidates. -/
theorem c9_empty_page_skipped (pageNum : Nat) (page : Page)
    (hempty : pageFontSizes pageNum page = []) :
    processPage pageNum page = [] := by
  unfold processPage
  rw [hempty]
  rfl

/-- Witness for C9: a page holding only a non-text block yields an empty
histogram and no headings. -/
theorem c9_empty_page_skipped_witness :
    pageFontSizes 3 exPageD = [] ∧ processPage 3 exPageD = [] :=
  ⟨by with_unfolding_all decide,
   c9_empty_page_skipped 3 exPageD (by with_unfolding_all decide)⟩

/-- When a non-empty title is selected, no outline entry's text is a
substring of it (lines 157–164 filter on Python's `in`). -/
theorem assign_outline_not_substr (hs : List Heading) (e : OutlineEntry)
    (he : e ∈ (assign_heading_levels hs).outline)
    (ht : (assign_heading_levels hs).title ≠ []) :
    pySubstr e.text (assign_heading_levels hs).title = false := by
  by_cases h1 : hs.isEmpty = true
  · exfalso
    simp only [assign_heading_levels, h1, if_true] at he
    simp at he
  · by_cases h2 : (filteredHeadings hs).isEmpty = true
    · exfalso
      simp only [assign_heading_levels, h1, h2, if_true, if_false] at he
      simp at he
    · simp only [assign_heading_levels, h1, h2, if_true, if_false] at he ht ⊢
      obtain ⟨x, hx, rfl⟩ := List.mem_map.mp he
      unfold nonTitleHeadings at hx
      rw [List.mem_filter] at hx
      have hcond := hx.2
      simp only [Bool.and_eq_true, Bool.or_eq_true, Bool.not_eq_true'] at hcond
      have htf : (computeTitle (filteredHeadings hs)).isEmpty = false := by
        cases hT : computeTitle (filteredHeadings hs) with
        | nil => exact absurd hT ht
        | cons _ _ => rfl
      rcases hcond.2 with hl | hr
      · rw [htf] at hl; exact absurd hl (by simp)
      · exact hr

/-- C2: in every pipeline run in which a non-empty title is selected, the
title string is not the `text` of any returned outline entry. -/
theorem c2_title_exclusivity (doc : List Page)
    (ht : (process_pdf_to_structured_format doc).title ≠ []) :
    ∀ e ∈ (process_pdf_to_structured_format doc).outline,
      e.text ≠ (process_pdf_to_structured_format doc).title := by
  intro e he heq
  unfold process_pdf_to_structured_format at ht he heq
  have h := assign_outline_not_substr (extract_pdf_text_with_styles doc) e he ht
  rw [heq] at h
  rw [pySubstr_self] at h
  exact Bool.true_eq_false.mp h

/-- Witness for C2 on a concrete document: the title
"Annual Report Overview" is non-empty and differs from the sole outline
entry's text. -/
theorem c2_title_exclusivity_witness :
    (process_pdf_to_structured_format exDocA).title ≠ [] ∧
    (⟨str "H1", str "signature application", 0⟩ : OutlineEntry) ∈
      (process_pdf_to_structured_format exDocA).outline ∧
    (str "signature application" : Str) ≠
      (process_pdf_to_structured_format exDocA).title :=
  ⟨by with_unfolding_all decide, by with_unfolding_all decide,
   c2_title_exclusivity exDocA (by with_unfolding_all decide)
     ⟨str "H1", str "signature application", 0⟩ (by with_unfolding_all decide)⟩

/-- C10: when a non-empty title is selected, every heading whose text
occurs anywhere as a substring of the title — not only an exact match — is
excluded from level assignment: no outline entry's text is a substring of
the title. -/
theorem c10_substring_exclusion (hs : List Heading)
    (ht : (assign_heading_levels hs).title ≠ []) :
    ∀ e ∈ (assign_heading_levels hs).outline,
      pySubstr e.text (assign_heading_levels hs).title = false :=
  fun e he => assign_outline_not_substr hs e he ht

def hsC10 : List Heading :=
  [⟨str "Annual Report Overview", 30, false, false, 0⟩,
   ⟨str "Report Overview", 14, false, false, 0⟩,
   ⟨str "Introduction", 13, false, false, 0⟩]

/-- The claim-side heading-block rule, following the claim's words: (a) at
most 3 distinct rounded sizes, (b) the most frequent size exceeds
`body_text_size` by the 1.5× ratio threshold, (c) the fraction of the
block's spans at that size exceeds 0.7; the relaxed page-0 rule
additionally admits blocks whose average size exceeds 2.0×body. -/
def claimBlockIsHeading (pageNum : Nat) (bodySize : ℚ) (blockSizes : List ℚ) :
    Bool :=
  let mainSize := mostCommonSize blockSizes
  let coverage : ℚ := (blockSizes.count mainSize : ℚ) / (blockSizes.length : ℚ)
  (numDistinct blockSizes ≤ 3 && decide (mainSize > bodySize * (3/2)) &&
    decide (coverage > 7/10)) ||
  (pageNum == 0 && decide (pyAvg blockSizes > bodySize * 2))

/-- Counterexample for C4.  With body size 10 on a non-first page, the code
accepts the block `[20, 20, 12]` though its coverage 2/3 is below 0.7, and
rejects `[16×8, 6×2]` though its coverage 0.8 and main-size ratio satisfy
the claimed rule (the code instead requires the average size to exceed
1.5×body, which 14 does not). -/
theorem c4_counterexample :
    blockIsHeading 1 10 [20, 20, 12] = true ∧
    claimBlockIsHeading 1 10 [20, 20, 12] = false ∧
    claimBlockIsHeading 1 10 [16, 16, 16, 16, 16, 16, 16, 16, 6, 6] = true ∧
    blockIsHeading 1 10 [16, 16, 16, 16, 16, 16, 16, 16, 6, 6] = false := by
  with_unfolding_all decide

/-- C4 (amended): a block is classified as a heading block exactly when at
most 3 distinct rounded sizes appear, its average span size exceeds
1.5×body_text_size, and its most frequent size is at least
1.5×body_text_size; on page 0 it also qualifies when at most 3 distinct
sizes appear and the average exceeds 2.0×body_text_size.  No span-coverage
fraction is tested. -/
theorem c4_amended_theorem (pageNum : Nat) (bodySize : ℚ)
    (blockSizes : List ℚ) :
    blockIsHeading pageNum bodySize blockSizes = true ↔
      ((numDistinct blockSizes ≤ 3 ∧ pyAvg blockSizes > bodySize * (3/2) ∧
        mostCommonSize blockSizes ≥ bodySize * (3/2)) ∨
       (pageNum = 0 ∧ pyAvg blockSizes > bodySize * 2 ∧
        numDistinct blockSizes ≤ 3)) := by
  unfold blockIsHeading
  dsimp only
  split_ifs with h1 h2
  · simp only [Bool.and_eq_true, decide_eq_true_eq] at h1
    simp [h1.1.1, h1.1.2, h1.2]
  · simp only [Bool.and_eq_true, decide_eq_true_eq, beq_iff_eq] at h2
    simp [h2.1.1, h2.1.2, h2.2]
  · simp only [Bool.and_eq_true, decide_eq_true_eq, beq_iff_eq, not_and] at h1 h2
    constructor
    · intro hF; exact absurd hF (by simp)
    · rintro (⟨hd, ha, hm⟩ | ⟨hp, ha, hd⟩)
      · exact absurd hm (by simpa [hd, ha] using h1)
      · exact absurd hd (by simpa [hp, ha] using h2)

theorem maxCountStep_ge (b q : ℚ × Nat) : b.2 ≤ (maxCountStep b q).2 := by
  unfold maxCountStep; split <;> omega

theorem foldl_maxCount_ge_init (l : List (ℚ × Nat)) (b : ℚ × Nat) :
    b.2 ≤ (l.foldl maxCountStep b).2 := by
  induction l generalizing b with
  | nil => simp
  | cons a t ih => exact le_trans (maxCountStep_ge b a) (ih (maxCountStep b a))

theorem foldl_maxCount_ge (l : List (ℚ × Nat)) (b : ℚ × Nat) :
    ∀ p ∈ l, p.2 ≤ (l.foldl maxCountStep b).2 := by
  induction l generalizing b with
  | nil => simp
  | cons a t ih =>
    intro p hp
    rcases List.mem_cons.mp hp with rfl | hmem
    · refine le_trans ?_ (foldl_maxCount_ge_init t (maxCountStep b p))
      unfold maxCountStep; split <;> omega
    · exact ih (maxCountStep b a) p hmem

theorem foldl_maxCount_mem (l : List (ℚ × Nat)) (b : ℚ × Nat) :
    l.foldl maxCountStep b = b ∨ l.foldl maxCountStep b ∈ l := by
  induction l generalizing b with
  | nil => simp
  | cons a t ih =>
    rcases ih (maxCountStep b a) with h | h
    · rw [List.foldl_cons, h]
      unfold maxCountStep; split
      · exact Or.inr (List.mem_cons_self a t)
      · exact Or.inl rfl
    · exact Or.inr (List.mem_cons_of_mem a h)

theorem pyDistinct_foldl_mem {α : Type} [BEq α] [LawfulBEq α]
    (l : List α) :
    ∀ (acc : List α) (x : α),
      (x ∈ l.foldl (fun acc x => if acc.contains x then acc else acc ++ [x]) acc
        ↔ x ∈ acc ∨ x ∈ l) := by
  induction l with
  | nil => intro acc x; simp
  | cons a t ih =>
    intro acc x
    rw [List.foldl_cons]
    by_cases hc : acc.contains a
    · rw [if_pos hc, ih]
      have ha : a ∈ acc := by simpa using hc
      constructor
      · rintro (h | h)
        · exact Or.inl h
        · exact Or.inr (List.mem_cons_of_mem a h)
      · rintro (h | h)
        · exact Or.inl h
        · rcases List.mem_cons.mp h with rfl | h2
          · exact Or.inl ha
          · exact Or.inr h2
    · rw [if_neg hc, ih]
      constructor
      · rintro (h | h)
        · rcases List.mem_append.mp h with h2 | h2
          · exact Or.inl h2
          · simp at h2
            exact Or.inr (h2 ▸ List.mem_cons_self a t)
        · exact Or.inr (List.mem_cons_of_mem a h)
      · rintro (h | h)
        · exact Or.inl (List.mem_append.mpr (Or.inl h))
        · rcases List.mem_cons.mp h with rfl | h2
          · exact Or.inl (by simp)
          · exact Or.inr h2

theorem pyDistinct_mem {α : Type} [BEq α] [LawfulBEq α] (l : List α) (x : α) :
    x ∈ pyDistinct l ↔ x ∈ l := by
  unfold pyDistinct
  rw [pyDistinct_foldl_mem l [] x]
  simp

/-- Function `mostCommonSize` returns an occurring size of maximal multiplicity. -/
theorem mostCommonSize_spec (l : List ℚ) (hne : l ≠ []) :
    mostCommonSize l ∈ l ∧
      ∀ s ∈ l, l.count s ≤ l.count (mostCommonSize l) := by
  have hres := foldl_maxCount_mem (countsList l) ((0 : ℚ), 0)
  have hcs : ∀ s ∈ l, (s, l.count s) ∈ countsList l := by
    intro s hs
    unfold countsList
    exact List.mem_map.mpr ⟨s, (pyDistinct_mem l s).mpr hs, rfl⟩
  have hge := foldl_maxCount_ge (countsList l) ((0 : ℚ), 0)
  rcases hres with h | h
  · exfalso
    obtain ⟨x, hx⟩ := List.exists_mem_of_ne_nil l hne
    have h1 := hge _ (hcs x hx)
    rw [h] at h1
    simp only at h1
    have h2 : 0 < l.count x := List.count_pos_iff.mpr hx
    omega
  · have h2 : (countsList l).foldl maxCountStep ((0 : ℚ), 0) ∈
        (pyDistinct l).map (fun x => (x, l.count x)) := h
    obtain ⟨x, hxd, hxe⟩ := List.mem_map.mp h2
    have hx : x ∈ l := (pyDistinct_mem l x).mp hxd
    have hm : mostCommonSize l = x := by
      unfold mostCommonSize
      rw [← hxe]
    refine ⟨hm ▸ hx, ?_⟩
    intro s hs
    have h3 := hge _ (hcs s hs)
    rw [← hxe] at h3
    rw [hm]
    simpa using h3

/-- C5: for a page with a non-empty body-region font-size histogram, if
the most frequent rounded size is at least 20 and more than one distinct
size occurs, the body text size is the second-most-frequent size; in every
other case it is the most frequent size (which indeed maximises the
multiplicity in the histogram). -/
theorem c5_body_text_size (pageNum : Nat) (page : Page)
    (hne : pageFontSizes pageNum page ≠ []) :
    (20 ≤ mostCommonSize (pageFontSizes pageNum page) ∧
        1 < numDistinct (pageFontSizes pageNum page) →
      computeBodyTextSize (pageFontSizes pageNum page) =
        secondMostCommonSize (pageFontSizes pageNum page)) ∧
    (¬ (20 ≤ mostCommonSize (pageFontSizes pageNum page) ∧
        1 < numDistinct (pageFontSizes pageNum page)) →
      computeBodyTextSize (pageFontSizes pageNum page) =
        mostCommonSize (pageFontSizes pageNum page)) ∧
    (∀ s ∈ pageFontSizes pageNum page,
      (pageFontSizes pageNum page).count s ≤
        (pageFontSizes pageNum page).count
          (mostCommonSize (pageFontSizes pageNum page))) := by
  refine ⟨?_, ?_, (mostCommonSize_spec _ hne).2⟩
  · intro hcond
    unfold computeBodyTextSize
    rw [if_pos]
    simp only [Bool.and_eq_true, decide_eq_true_eq]
    exact hcond
  · intro hcond
    unfold computeBodyTextSize
    rw [if_neg]
    simp only [Bool.and_eq_true, decide_eq_true_eq]
    exact hcond

/-- Witness for C5 at two concrete pages: a giant-title page (most common
size 20, two distinct sizes) falls back to the second-most-frequent size
11, and an ordinary page keeps its most frequent size 11. -/
theorem c5_body_text_size_witness :
    pageFontSizes 0 exPageC ≠ [] ∧
    secondMostCommonSize (pageFontSizes 0 exPageC) = 11 ∧
    computeBodyTextSize (pageFontSizes 0 exPageC) =
      secondMostCommonSize (pageFontSizes 0 exPageC) ∧
    mostCommonSize (pageFontSizes 0 exPageA) = 11 ∧
    computeBodyTextSize (pageFontSizes 0 exPageA) =
      mostCommonSize (pageFontSizes 0 exPageA) :=
  ⟨by with_unfolding_all decide, by with_unfolding_all decide,
   (c5_body_text_size 0 exPageC (by with_unfolding_all decide)).1
     ⟨by with_unfolding_all decide, by with_unfolding_all decide⟩,
   by with_unfolding_all decide,
   (c5_body_text_size 0 exPageA (by with_unfolding_all decide)).2.1
     (by with_unfolding_all decide)⟩

theorem mergeChain_suffix_len (cur : PageHeading)
    (l : List (Option PageHeading)) :
    (mergeChain cur l).2.length ≤ l.length := by
  induction l generalizing cur with
  | nil => simp [mergeChain]
  | cons o t ih =>
    cases o with
    | none => simp [mergeChain]
    | some h =>
      unfold mergeChain
      split
      · exact le_trans (ih _) (by simp)
      · simp

theorem mergeAllF_congr (f : Nat) :
    ∀ (g : Nat) (l : List (Option PageHeading)),
      l.length ≤ f → l.length ≤ g → mergeAllF f l = mergeAllF g l := by
  induction f with
  | zero =>
    intro g l hf _
    have : l = [] := List.length_eq_zero.mp (Nat.le_zero.mp hf)
    subst this
    cases g <;> rfl
  | succ f ih =>
    intro g l hf hg
    cases l with
    | nil => cases g <;> rfl
    | cons o t =>
      cases g with
      | zero => simp at hg
      | succ g =>
        cases o with
        | none =>
          show mergeAllF f t = mergeAllF g t
          exact ih g t (Nat.le_of_succ_le_succ hf) (Nat.le_of_succ_le_succ hg)
        | some h =>
          show (mergeChain h t).1.toHeading :: mergeAllF f (mergeChain h t).2 =
            (mergeChain h t).1.toHeading :: mergeAllF g (mergeChain h t).2
          have hlen := mergeChain_suffix_len h t
          rw [ih g (mergeChain h t).2
            (le_trans hlen (Nat.le_of_succ_le_succ hf))
            (le_trans hlen (Nat.le_of_succ_le_succ hg))]

/-- Counterexample for C6's cross-pass clause: on `exPageB` the
heading-block pass emits "Section" and the regular line pass emits
"Overview"; they agree in size, boldness and italics, the first has no
terminal punctuation and the merged length is far below 100, yet the two
are returned as separate headings and no "Section Overview" heading
exists. -/
theorem c6_counterexample :
    processPage 0 exPageB =
      [⟨str "Section", 16, false, false, 0⟩,
       ⟨str "Overview", 16, false, false, 0⟩] ∧
    mergeCond ⟨str "Section", 16, false, false, 0, 20⟩
      ⟨str "Overview", 16, false, false, 0, 30⟩ = true ∧
    ¬ (⟨str "Section Overview", 16, false, false, 0⟩ : Heading) ∈
        processPage 0 exPageB := by
  refine ⟨?_, ?_, ?_⟩ <;> with_unfolding_all decide

/-- C6 (amended): merging acts only on the regular line-scan candidate
sequence, sorted by vertical position: a candidate merges into its
predecessor exactly when font size, bold and italic match, the
predecessor's accumulated text does not end in '.', '?' or '!', and the
merged length stays at or under 100 characters; a non-heading line breaks
the chain.  Headings emitted by the heading-block pass, the mixed-content
pass and the title-region pass are appended separately and never enter the
merge. -/
theorem c6_amended_theorem :
    (∀ (a b : PageHeading) (t : List (Option PageHeading)),
      mergeCond a b = true →
      mergeAll (some a :: some b :: t) =
        mergeAll (some { a with text := a.text ++ ' ' :: b.text } :: t)) ∧
    (∀ (a b : PageHeading) (t : List (Option PageHeading)),
      mergeCond a b = false →
      mergeAll (some a :: some b :: t) = a.toHeading :: mergeAll (some b :: t)) ∧
    (∀ (a : PageHeading) (t : List (Option PageHeading)),
      mergeAll (some a :: none :: t) = a.toHeading :: mergeAll t) ∧
    (∀ (pageNum : Nat) (page : Page),
      pageFontSizes pageNum page = [] ∨
      processPage pageNum page =
        (blockPass pageNum page (computeBodyTextSize (pageFontSizes pageNum page))
          (pageLineData pageNum page)).headings ++
        (mixedPass pageNum (pageLineData pageNum page)
          (blockPass pageNum page (computeBodyTextSize (pageFontSizes pageNum page))
            (pageLineData pageNum page)).processed).headings ++
        (titlePass pageNum page
          (blockPass pageNum page (computeBodyTextSize (pageFontSizes pageNum page))
            (pageLineData pageNum page)).processed).headings ++
        mergeAll (regularCandidates pageNum page
          (computeBodyTextSize (pageFontSizes pageNum page))
          (titlePass pageNum page
            (blockPass pageNum page (computeBodyTextSize (pageFontSizes pageNum page))
              (pageLineData pageNum page)).processed).processed
          (pageLineData pageNum page))) := by
  refine ⟨?_, ?_, ?_, ?_⟩
  · intro a b t hcond
    show mergeAllF (t.length + 2) (some a :: some b :: t) =
      mergeAllF (t.length + 1) (some { a with text := a.text ++ ' ' :: b.text } :: t)
    have hchain : mergeChain a (some b :: t) =
        mergeChain { a with text := a.text ++ ' ' :: b.text } t := by
      rw [mergeChain, if_pos hcond]
    show (mergeChain a (some b :: t)).1.toHeading ::
        mergeAllF (t.length + 1) (mergeChain a (some b :: t)).2 = _
    rw [hchain]
    show _ = (mergeChain _ t).1.toHeading :: mergeAllF t.length (mergeChain _ t).2
    have hlen := mergeChain_suffix_len { a with text := a.text ++ ' ' :: b.text } t
    rw [mergeAllF_congr (t.length + 1) t.length _ (le_trans hlen (by omega)) hlen]
  · intro a b t hcond
    show mergeAllF (t.length + 2) (some a :: some b :: t) =
      a.toHeading :: mergeAllF (t.length + 1) (some b :: t)
    have hchain : mergeChain a (some b :: t) = (a, some b :: t) := by
      rw [mergeChain, if_neg (by simp [hcond])]
    show (mergeChain a (some b :: t)).1.toHeading ::
        mergeAllF (t.length + 1) (mergeChain a (some b :: t)).2 = _
    rw [hchain]
  · intro a t
    show mergeAllF (t.length + 2) (some a :: none :: t) =
      a.toHeading :: mergeAllF t.length t
    have hchain : mergeChain a (none :: t) = (a, none :: t) := rfl
    show (mergeChain a (none :: t)).1.toHeading ::
        mergeAllF (t.length + 1) (mergeChain a (none :: t)).2 = _
    rw [hchain]
    rfl
  · intro pageNum page
    by_cases hempty : pageFontSizes pageNum page = []
    · exact Or.inl hempty
    · refine Or.inr ?_
      unfold processPage
      rw [if_neg (by simpa using hempty)]

/-- Witness for C6 (amended) on concrete candidates: "Section" followed by
"Overview" with matching style merges into "Section Overview", and a
`none` (non-heading line) breaks the chain. -/
theorem c6_amended_theorem_witness :
    mergeCond ⟨str "Section", 16, false, false, 0, 20⟩
      ⟨str "Overview", 16, false, false, 0, 30⟩ = true ∧
    mergeAll [some ⟨str "Section", 16, false, false, 0, 20⟩,
      some ⟨str "Overview", 16, false, false, 0, 30⟩] =
      mergeAll [some ⟨str "Section Overview", 16, false, false, 0, 20⟩] ∧
    mergeAll [some ⟨str "Section", 16, false, false, 0, 20⟩, none] =
      (⟨str "Section", 16, false, false, 0, 20⟩ : PageHeading).toHeading ::
        mergeAll [] :=
  ⟨by with_unfolding_all decide,
   c6_amended_theorem.1 ⟨str "Section", 16, false, false, 0, 20⟩
     ⟨str "Overview", 16, false, false, 0, 30⟩ []
     (by with_unfolding_all decide),
   c6_amended_theorem.2.2.1 ⟨str "Section", 16, false, false, 0, 20⟩ []⟩

/-! Spec-side reconstruction for C7, following the claim's words. -/

/-- Largest case-insensitive suffix/prefix overlap between two fragments. -/
def overlapLen (a b : Str) : Nat :=
  let la := pyLower a
  let lb := pyLower b
  (List.range (min la.length lb.length + 1)).foldl (fun best k =>
    if la.drop (la.length - k) == lb.take k then k else best) 0

/-- Merge the second fragment into the first by appending only the
non-overlapping remainder. -/
def overlapMergePair (a b : Str) : Str := a ++ b.drop (overlapLen a b)

/-- The first ordered pair of distinct fragment indices achieving the
maximal positive overlap. -/
def bestOverlapPair (frags : List Str) : Option (Nat × Nat × Nat) :=
  (List.range frags.length).foldl (fun best i =>
    (List.range frags.length).foldl (fun best2 j =>
      if i == j then best2
      else
        let ov := overlapLen (frags.getD i []) (frags.getD j [])
        match best2 with
        | none => if ov > 0 then some (i, j, ov) else none
        | some p => if ov > p.2.2 then some (i, j, ov) else some p) best) none

/-- Replace the merged pair by the merged fragment, at the smaller index. -/
def applyOverlapMerge (frags : List Str) (i j : Nat) : List Str :=
  let merged := overlapMergePair (frags.getD i []) (frags.getD j [])
  let rest := (frags.eraseIdx (max i j)).eraseIdx (min i j)
  rest.take (min i j) ++ [merged] ++ rest.drop (min i j)

/-- Iterate the largest-overlap merge to a fixed point. -/
def specOverlapMergeF : Nat → List Str → List Str
  | 0, fr => fr
  | fuel + 1, fr =>
    if fr.length ≥ 2 then
      match bestOverlapPair fr with
      | some (i, j, _) => specOverlapMergeF fuel (applyOverlapMerge fr i j)
      | none => fr
    else fr

/-- The reconstruction algorithm as the claim states it: collect spans at
the classified size, remove exact duplicates preserving order, apply
suffix/prefix overlap-merge when three or more distinct fragments remain
(falling back to the single longest fragment if no consistent merge chain
exists), then collapse repeated whitespace and drop immediately-repeated
identical tokens. -/
def claimReconstructText (spans : List Span) (size : ℚ) : Str :=
  let uniq := pyDistinct (titleSpanTexts spans size)
  let merged :=
    if uniq.length ≥ 3 then
      let fr := specOverlapMergeF uniq.length uniq
      if fr.length == 1 then fr.headD [] else maxByLen uniq
    else joinSpace uniq
  joinSpace (dedupAdjacent (pySplit (collapseWs merged)))

/-- A block with three overlapping duplicated fragments at one size. -/
def exSpansC : List Span :=
  [mkSpan "Over" 12 (0, 0, 40, 8), mkSpan "verview" 12 (10, 0, 60, 8),
   mkSpan "Overview" 12 (0, 0, 60, 8)]

/-- Counterexample for C7: on three overlapping fragments the claimed
algorithm would produce the overlap-merged string "Overview", but the
code's title-pass reconstruction performs no overlap merge and returns the
plain join "Over verview Overview". -/
theorem c7_counterexample :
    titleBlockText exSpansC 12 = str "Over verview Overview" ∧
    claimReconstructText exSpansC 12 = str "Overview" ∧
    titleBlockText exSpansC 12 ≠ claimReconstructText exSpansC 12 := by
  refine ⟨?_, ?_, ?_⟩ <;> with_unfolding_all decide

/-- C7 (amended): reconstruction never performs suffix/prefix
overlap-merge.  The title-region pass removes exact duplicates preserving
order (and membership) and joins with spaces; the heading-block pass, owing
to its mis-indented loop, surfaces at most the final span's text
(whitespace-normalised) — every other span's text is discarded. -/
theorem c7_amended_theorem :
    (∀ (spans : List Span) (bodySize : ℚ) (last : Span),
      spans.getLast? = some last →
      blockPassText spans bodySize =
          collapseWs (pyReplace (pyStrip last.text) (str "  ") (str " ")) ∨
        blockPassText spans bodySize = []) ∧
    (∀ (spans : List Span) (mainSize : ℚ) (t : Str),
      t ∈ pyDistinct (titleSpanTexts spans mainSize) ↔
        t ∈ titleSpanTexts spans mainSize) := by
  constructor
  · intro spans bodySize last hlast
    unfold blockPassText
    rw [hlast]
    dsimp only
    split <;> split
    · left
      simp only [List.flatten_cons, List.flatten_nil, List.append_nil]
    · right
      rfl
    · left
      simp only [List.flatten_cons, List.flatten_nil, List.append_nil]
    · right
      rfl
  · intro spans mainSize t
    exact pyDistinct_mem (titleSpanTexts spans mainSize) t

/-- Witness for C7 (amended): on `exSpansC` the block pass surfaces only
the final fragment "Overview", and "verview" is kept by the title-pass
dedup because it occurs among the span texts. -/
theorem c7_amended_theorem_witness :
    exSpansC.getLast? = some (mkSpan "Overview" 12 (0, 0, 60, 8)) ∧
    (blockPassText exSpansC 10 =
        collapseWs (pyReplace (pyStrip (str "Overview")) (str "  ") (str " ")) ∨
      blockPassText exSpansC 10 = []) ∧
    ((str "verview" : Str) ∈ pyDistinct (titleSpanTexts exSpansC 12) ↔
      (str "verview" : Str) ∈ titleSpanTexts exSpansC 12) :=
  ⟨by with_unfolding_all decide,
   c7_amended_theorem.1 exSpansC 10 (mkSpan "Overview" 12 (0, 0, 60, 8))
     (by with_unfolding_all decide),
   c7_amended_theorem.2 exSpansC 12 (str "verview")⟩

/-! Sorting and lookup lemmas for C3. -/

theorem insertDescQ_perm (x : ℚ) (l : List ℚ) : List.Perm (insertDescQ x l) (x :: l) := by
  induction l with
  | nil => rfl
  | cons y ys ih =>
    unfold insertDescQ
    split
    · rfl
    · exact (ih.cons y).trans (List.Perm.swap x y ys)

theorem sortDescQ_perm_aux (l : List ℚ) :
    ∀ acc : List ℚ, List.Perm (l.foldl (fun acc x => insertDescQ x acc) acc) (acc ++ l) := by
  induction l with
  | nil => intro acc; simp
  | cons a t ih =>
    intro acc
    rw [List.foldl_cons]
    refine (ih (insertDescQ a acc)).trans ?_
    have h1 : List.Perm (insertDescQ a acc ++ t) ((a :: acc) ++ t) :=
      (insertDescQ_perm a acc).append_right t
    refine h1.trans ?_
    exact List.perm_middle.symm

theorem sortDescQ_perm (l : List ℚ) : List.Perm (sortDescQ l) l := by
  simpa using sortDescQ_perm_aux l []

theorem mem_insertDescQ (a x : ℚ) (l : List ℚ) :
    a ∈ insertDescQ x l ↔ a = x ∨ a ∈ l := by
  rw [(insertDescQ_perm x l).mem_iff]
  simp

theorem insertDescQ_sorted (x : ℚ) (l : List ℚ)
    (h : l.Sorted (· ≥ ·)) : (insertDescQ x l).Sorted (· ≥ ·) := by
  induction l with
  | nil => simp [insertDescQ]
  | cons y ys ih =>
    rw [List.sorted_cons] at h
    unfold insertDescQ
    split
    · rename_i hxy
      rw [List.sorted_cons]
      refine ⟨?_, List.sorted_cons.mpr h⟩
      intro b hb
      rcases List.mem_cons.mp hb with rfl | hb2
      · exact le_of_lt (by exact_mod_cast of_decide_eq_true hxy)
      · exact le_trans (h.1 b hb2) (le_of_lt (of_decide_eq_true hxy))
    · rename_i hxy
      rw [List.sorted_cons]
      constructor
      · intro b hb
        rcases (mem_insertDescQ b x ys).mp hb with rfl | hb2
        · exact le_of_not_lt (fun hlt => hxy (decide_eq_true hlt))
        · exact h.1 b hb2
      · exact ih h.2

theorem sortDescQ_sorted (l : List ℚ) : (sortDescQ l).Sorted (· ≥ ·) := by
  unfold sortDescQ
  suffices h : ∀ acc : List ℚ, acc.Sorted (· ≥ ·) →
      (l.foldl (fun acc x => insertDescQ x acc) acc).Sorted (· ≥ ·) by
    exact h [] (by simp)
  induction l with
  | nil => intro acc hacc; simpa using hacc
  | cons a t ih =>
    intro acc hacc
    rw [List.foldl_cons]
    exact ih (insertDescQ a acc) (insertDescQ_sorted a acc hacc)

theorem pyDistinct_nodup {α : Type} [BEq α] [LawfulBEq α] (l : List α) :
    (pyDistinct l).Nodup := by
  unfold pyDistinct
  suffices h : ∀ acc : List α, acc.Nodup →
      (l.foldl (fun acc x => if acc.contains x then acc else acc ++ [x]) acc).Nodup by
    exact h [] (by simp)
  induction l with
  | nil => intro acc hacc; simpa using hacc
  | cons a t ih =>
    intro acc hacc
    rw [List.foldl_cons]
    by_cases hc : acc.contains a
    · rw [if_pos hc]; exact ih acc hacc
    · rw [if_neg hc]
      refine ih (acc ++ [a]) ?_
      rw [List.nodup_append]
      refine ⟨hacc, List.nodup_singleton a, ?_⟩
      intro b hb hmem
      simp only [List.mem_singleton] at hmem
      subst hmem
      exact hc (by simpa using hb)

/-- The claim-side banding rule: the numeric span `max − min` is divided
into four equal intervals and a size's band determines its level. -/
def bandLevelOf (maxSize minSize s : ℚ) : Str :=
  let sizeRange := maxSize - minSize
  let rangeSize := sizeRange / 4
  if decide (s > maxSize - rangeSize) then str "H1"
  else if decide (s > maxSize - 2 * rangeSize) then str "H2"
  else if decide (s > maxSize - 3 * rangeSize) then str "H3"
  else str "H4"

theorem lookupLevel_zip (ks : List ℚ) :
    ∀ (vs : List Str), ks.Nodup →
      ∀ i, i < ks.length → i < vs.length →
        lookupLevel (ks.zip vs) (ks.getD i 0) = vs.getD i [] := by
  induction ks with
  | nil => intro vs _ i hki; simp at hki
  | cons k kt ih =>
    intro vs hnd i hki hvi
    cases vs with
    | nil => simp at hvi
    | cons v vt =>
      cases i with
      | zero =>
        show lookupLevel ((k, v) :: kt.zip vt) k = v
        unfold lookupLevel
        rw [List.find?_cons_of_pos _ (by simp)]
      | succ n =>
        have hn : n < kt.length := by simpa using hki
        have hmem : kt.getD n 0 ∈ kt := by
          rw [List.getD_eq_getElem kt 0 hn]
          exact List.getElem_mem hn
        have hknot : k ∉ kt := (List.nodup_cons.mp hnd).1
        have hne : (k == kt.getD n 0) = false :=
          beq_eq_false_iff_ne.mpr (fun h => hknot (h ▸ hmem))
        show lookupLevel ((k, v) :: kt.zip vt) (kt.getD n 0) = vt.getD n []
        unfold lookupLevel
        rw [List.find?_cons_of_neg _ (by simpa using hne)]
        exact ih vt (List.nodup_cons.mp hnd).2 n hn (by simpa using hvi)

theorem lookupLevel_map (f : ℚ → Str) (l : List ℚ) (s : ℚ) (hs : s ∈ l) :
    lookupLevel (l.map (fun x => (x, f x))) s = f s := by
  induction l with
  | nil => simp at hs
  | cons x xt ih =>
    by_cases hx : x = s
    · subst hx
      unfold lookupLevel
      rw [List.map_cons, List.find?_cons_of_pos _ (by simp)]
    · have hs2 : s ∈ xt := by
        rcases List.mem_cons.mp hs with h | h
        · exact absurd h.symm hx
        · exact h
      unfold lookupLevel
      rw [List.map_cons, List.find?_cons_of_neg _ (by simp [hx])]
      exact ih hs2

theorem lookupLevel_levels (m : List (ℚ × Str))
    (hm : ∀ p ∈ m, p.2 ∈ availableLevels) (s : ℚ) :
    lookupLevel m s ∈ availableLevels := by
  unfold lookupLevel
  cases hf : m.find? (fun p => p.1 == s) with
  | none => simp [availableLevels]
  | some p => exact hm p (List.mem_of_find?_eq_some hf)

theorem bucketLevel_mem (maxSize rangeSize s : ℚ) :
    bucketLevel maxSize rangeSize s ∈ availableLevels := by
  unfold bucketLevel
  split_ifs <;> simp [availableLevels]

theorem buildLevelMapping_levels (sizes : List ℚ) :
    ∀ p ∈ buildLevelMapping sizes, p.2 ∈ availableLevels := by
  unfold buildLevelMapping
  split_ifs with h1 h2
  · simp
  · intro p hp
    exact (List.of_mem_zip hp).2
  · dsimp only
    split_ifs with h3
    · intro p hp
      obtain ⟨s, _, rfl⟩ := List.mem_map.mp hp
      exact bucketLevel_mem _ _ _
    · intro p hp
      obtain ⟨s, _, rfl⟩ := List.mem_map.mp hp
      simp [availableLevels]

/-- The pipeline's distinct-size list is duplicate-free and strictly
descending. -/
theorem sortedSizesOf_spec (nt : List Heading) :
    (sortedSizesOf nt).Nodup ∧ List.Chain' (· > ·) (sortedSizesOf nt) := by
  have hperm := sortDescQ_perm (pyDistinct (nt.map (fun h => h.font_size)))
  have hnd : (sortedSizesOf nt).Nodup :=
    hperm.symm.nodup (pyDistinct_nodup _)
  refine ⟨hnd, ?_⟩
  have hsorted : (sortedSizesOf nt).Sorted (· ≥ ·) := sortDescQ_sorted _
  have hpair : (sortedSizesOf nt).Pairwise (· > ·) := by
    have hcomb := hsorted.and hnd
    exact hcomb.imp (fun hab => lt_of_le_of_ne hab.1 (Ne.symm hab.2))
  exact hpair.chain'

/-- C3: with at most 4 distinct font sizes among the surviving headings the
sizes, sorted descending, map directly onto H1..H4 in order; with more
than 4 distinct sizes the numeric span `max − min` is divided into four
equal intervals and each size's band determines its level; and every
outline entry receives exactly one level drawn from {H1, H2, H3, H4},
never none.  (The pipeline's `sortedSizesOf` input is duplicate-free and
strictly descending, as the first conjunct records.) -/
theorem c3_level_assignment :
    (∀ nt : List Heading,
      (sortedSizesOf nt).Nodup ∧ List.Chain' (· > ·) (sortedSizesOf nt)) ∧
    (∀ sizes : List ℚ, sizes.Nodup → sizes.length ≤ 4 →
      ∀ i, i < sizes.length →
        lookupLevel (buildLevelMapping sizes) (sizes.getD i 0) =
          availableLevels.getD i []) ∧
    (∀ sizes : List ℚ, 4 < sizes.length → pyMinQ sizes < pyMaxQ sizes →
      ∀ s ∈ sizes, lookupLevel (buildLevelMapping sizes) s =
        bandLevelOf (pyMaxQ sizes) (pyMinQ sizes) s) ∧
    (∀ hs : List Heading, ∀ e ∈ (assign_heading_levels hs).outline,
      e.level = str "H1" ∨ e.level = str "H2" ∨ e.level = str "H3" ∨
        e.level = str "H4") := by
  refine ⟨sortedSizesOf_spec, ?_, ?_, ?_⟩
  · intro sizes hnd hlen i hi
    unfold buildLevelMapping
    rw [if_neg (by simp [List.isEmpty_iff]; rintro rfl; simp at hi),
      if_pos (by simpa using hlen)]
    exact lookupLevel_zip sizes availableLevels hnd i hi
      (by simp [availableLevels]; omega)
  · intro sizes hlen hrange s hs
    unfold buildLevelMapping
    rw [if_neg (by simp [List.isEmpty_iff]; rintro rfl; simp at hlen),
      if_neg (by omega)]
    dsimp only
    rw [if_pos (by simpa using sub_pos.mpr hrange)]
    rw [lookupLevel_map _ sizes s hs]
    rfl
  · intro hs e he
    by_cases h1 : hs.isEmpty = true
    · simp only [assign_heading_levels, h1, if_true] at he
      simp at he
    · by_cases h2 : (filteredHeadings hs).isEmpty = true
      · simp only [assign_heading_levels, h1, h2, if_true, if_false] at he
        simp at he
      · simp only [assign_heading_levels, h1, h2, if_true, if_false] at he
        obtain ⟨x, _, rfl⟩ := List.mem_map.mp he
        have hm := lookupLevel_levels _
          (buildLevelMapping_levels
            (sortedSizesOf (nonTitleHeadings (filteredHeadings hs)
              (computeTitle (filteredHeadings hs))))) x.font_size
        simpa [availableLevels] using hm

/-- Witness for C3 at concrete size lists: with the four sizes
`[24, 20, 16, 14]` the third-largest maps to H3; with the five sizes
`[24, 20, 16, 14, 11]` the size 16 falls in the third band (H3); and the
sole outline entry of the example document carries a level from
{H1, H2, H3, H4}. -/
theorem c3_level_assignment_witness :
    ([24, 20, 16, 14] : List ℚ).Nodup ∧
    lookupLevel (buildLevelMapping [24, 20, 16, 14]) 16 = str "H3" ∧
    (4 < ([24, 20, 16, 14, 11] : List ℚ).length ∧
      pyMinQ [24, 20, 16, 14, 11] < pyMaxQ [24, 20, 16, 14, 11]) ∧
    lookupLevel (buildLevelMapping [24, 20, 16, 14, 11]) 16 =
      bandLevelOf (pyMaxQ [24, 20, 16, 14, 11]) (pyMinQ [24, 20, 16, 14, 11]) 16 ∧
    ((⟨str "H1", str "signature application", 0⟩ : OutlineEntry).level = str "H1" ∨
     (⟨str "H1", str "signature application", 0⟩ : OutlineEntry).level = str "H2" ∨
     (⟨str "H1", str "signature application", 0⟩ : OutlineEntry).level = str "H3" ∨
     (⟨str "H1", str "signature application", 0⟩ : OutlineEntry).level = str "H4") :=
  ⟨by with_unfolding_all decide,
   c3_level_assignment.2.1 [24, 20, 16, 14] (by with_unfolding_all decide)
     (by with_unfolding_all decide) 2 (by with_unfolding_all decide),
   ⟨by with_unfolding_all decide, by with_unfolding_all decide⟩,
   c3_level_assignment.2.2.1 [24, 20, 16, 14, 11] (by with_unfolding_all decide)
     (by with_unfolding_all decide) 16 (by with_unfolding_all decide),
   c3_level_assignment.2.2.2 (extract_pdf_text_with_styles exDocA)
     ⟨str "H1", str "signature application", 0⟩ (by with_unfolding_all decide)⟩

/-! Filter invariants of the emission passes, for C1. -/

theorem blockPassStep_filtered (pageNum : Nat) (page : Page) (bodySize : ℚ)
    (st : PassState) (ld : LineData)
    (hst : ∀ h ∈ st.headings, is_non_meaningful_heading h.text = false) :
    ∀ h ∈ (blockPassStep pageNum page bodySize st ld).headings,
      is_non_meaningful_heading h.text = false := by
  intro h hmem
  unfold blockPassStep at hmem
  split at hmem
  · exact hst h hmem
  · dsimp only at hmem
    split at hmem
    · exact hst h hmem
    · split at hmem
      · split at hmem
        · split at hmem
          · rename_i hcond hlik
            simp only at hmem
            rcases List.mem_append.mp hmem with hmem2 | hmem2
            · exact hst h hmem2
            · simp only [List.mem_singleton] at hmem2
              subst hmem2
              simp only [Bool.and_eq_true, Bool.not_eq_true'] at hcond
              exact hcond.1.2
          · exact hst h hmem
        · exact hst h hmem
      · exact hst h hmem

theorem mixedLineStep_filtered (pageNum blockIdx : Nat) (st : MixedState)
    (p : Nat × Line)
    (hst : ∀ h ∈ st.headings, is_non_meaningful_heading h.text = false) :
    ∀ h ∈ (mixedLineStep pageNum blockIdx st p).headings,
      is_non_meaningful_heading h.text = false := by
  intro h hmem
  unfold mixedLineStep at hmem
  split at hmem
  · exact hst h hmem
  · dsimp only at hmem
    split at hmem
    · split at hmem
      · rename_i hcond
        simp only at hmem
        rcases List.mem_append.mp hmem with hmem2 | hmem2
        · exact hst h hmem2
        · simp only [List.mem_singleton] at hmem2
          subst hmem2
          simp only [Bool.and_eq_true, Bool.not_eq_true'] at hcond
          exact hcond.1.2
      · exact hst h hmem
    · exact hst h hmem

theorem regularLineStep_filtered (pageNum : Nat) (page : Page) (bodySize : ℚ)
    (processed : List Nat) (acc : List (Option PageHeading)) (ld : LineData)
    (hacc : ∀ o ∈ acc, ∀ h : PageHeading, o = some h →
      is_non_meaningful_heading h.text = false) :
    ∀ o ∈ regularLineStep pageNum page bodySize processed acc ld,
      ∀ h : PageHeading, o = some h →
        is_non_meaningful_heading h.text = false := by
  intro o hmem h ho
  unfold regularLineStep at hmem
  split at hmem
  · exact hacc o hmem h ho
  · dsimp only at hmem
    split at hmem
    · exact hacc o hmem h ho
    · split at hmem
      · split at hmem
        · exact hacc o hmem h ho
        · split at hmem
          · split at hmem
            · rename_i hcond himg
              rcases List.mem_append.mp hmem with hmem2 | hmem2
              · exact hacc o hmem2 h ho
              · simp only [List.mem_singleton] at hmem2
                subst hmem2
                cases ho
                simp only [Bool.and_eq_true, Bool.not_eq_true'] at hcond
                exact hcond.1.2
            · exact hacc o hmem h ho
          · exact hacc o hmem h ho
      · rcases List.mem_append.mp hmem with hmem2 | hmem2
        · exact hacc o hmem2 h ho
        · simp only [List.mem_singleton] at hmem2
          subst hmem2
          cases ho

/-- Counterexample for C1: on `exDocA` the returned outline consists of the
entry "signature application", whose text the Noise/Validity Filter
rejects — the candidate was admitted through the title-region pass's
potential-title branch, which bypasses `is_non_meaningful_heading`. -/
theorem c1_counterexample :
    process_pdf_to_structured_format exDocA =
      ⟨str "Annual Report Overview",
       [⟨str "H1", str "signature application", 0⟩]⟩ ∧
    is_non_meaningful_heading (str "signature application") = true := by
  constructor <;> with_unfolding_all decide

/-- C1 (amended): every candidate emitted by the heading-block classifier
pass, the mixed-content line pass, or the regular line scan passes the
Noise/Validity Filter at emission; candidates admitted through the
title-region pass's potential-title branch, and texts formed by merging
adjacent regular candidates, are not re-checked by the filter. -/
theorem c1_amended_theorem :
    (∀ (pageNum : Nat) (page : Page) (bodySize : ℚ) (lines : List LineData),
      ∀ h ∈ (blockPass pageNum page bodySize lines).headings,
        is_non_meaningful_heading h.text = false) ∧
    (∀ (pageNum : Nat) (lines : List LineData) (processedBlocks : List Nat),
      ∀ h ∈ (mixedPass pageNum lines processedBlocks).headings,
        is_non_meaningful_heading h.text = false) ∧
    (∀ (pageNum : Nat) (page : Page) (bodySize : ℚ) (processed : List Nat)
        (lines : List LineData),
      ∀ o ∈ regularCandidates pageNum page bodySize processed lines,
        ∀ h : PageHeading, o = some h →
          is_non_meaningful_heading h.text = false) := by
  refine ⟨?_, ?_, ?_⟩
  · intro pageNum page bodySize lines
    unfold blockPass
    exact foldl_preserve
      (fun st ld hst => blockPassStep_filtered pageNum page bodySize st ld hst)
      lines (⟨[], []⟩ : PassState)
      (by intro h hmem; exact absurd hmem (List.not_mem_nil h))
  · intro pageNum lines processedBlocks
    unfold mixedPass
    have hstep : ∀ (st : MixedState) (ld : LineData),
        (∀ h ∈ st.headings, is_non_meaningful_heading h.text = false) →
        ∀ h ∈ (if processedBlocks.contains ld.blockIdx then st
            else ld.block.lines.enum.foldl (mixedLineStep pageNum ld.blockIdx) st).headings,
          is_non_meaningful_heading h.text = false := by
      intro st ld hst
      by_cases hc : processedBlocks.contains ld.blockIdx = true
      · rw [if_pos hc]; exact hst
      · rw [if_neg hc]
        exact foldl_preserve
          (fun st2 p hst2 => mixedLineStep_filtered pageNum ld.blockIdx st2 p hst2)
          ld.block.lines.enum st hst
    exact foldl_preserve hstep lines (⟨[], []⟩ : MixedState)
      (by intro h hmem; exact absurd hmem (List.not_mem_nil h))
  · intro pageNum page bodySize processed lines
    unfold regularCandidates
    exact foldl_preserve
      (fun acc ld hacc =>
        regularLineStep_filtered pageNum page bodySize processed acc ld hacc)
      (stableSortByY lines) []
      (by intro o hmem; exact absurd hmem (List.not_mem_nil o))

/-- Witness for C1 (amended): the block-pass heading "Section" of
`exPageB` indeed passes the Noise/Validity Filter. -/
theorem c1_amended_theorem_witness :
    (⟨str "Section", 16, false, false, 0⟩ : Heading) ∈
      (blockPass 0 exPageB 10 (pageLineData 0 exPageB)).headings ∧
    is_non_meaningful_heading (str "Section") = false :=
  ⟨by with_unfolding_all decide,
   c1_amended_theorem.1 0 exPageB 10 (pageLineData 0 exPageB)
     ⟨str "Section", 16, false, false, 0⟩ (by with_unfolding_all decide)⟩

/-- Witness for C10: "Report Overview" — a distinct, shorter heading that
occurs inside the title "Annual Report Overview" — is silently dropped,
and the surviving entry's text is not a substring of the title. -/
theorem c10_substring_exclusion_witness :
    (assign_heading_levels hsC10).title ≠ [] ∧
    (assign_heading_levels hsC10).outline = [⟨str "H1", str "Introduction", 0⟩] ∧
    pySubstr (str "Introduction") (assign_heading_levels hsC10).title = false :=
  ⟨by with_unfolding_all decide, by with_unfolding_all decide,
   c10_substring_exclusion hsC10 (by with_unfolding_all decide)
     ⟨str "H1", str "Introduction", 0⟩ (by with_unfolding_all decide)⟩

end PdfOutline
